import Mathlib

/-!
Verification of the yes_db storage engine against its specification.

The Python sources are shallowly embedded: bytes are natural numbers below
256, byte strings are lists of naturals, machine integers are Nat or Int
with explicit wrap-around where the source wraps, and fallible code returns
Option or Except.  Each definition mirrors one function of the repository;
the section headers name the source file.
-/

set_option maxRecDepth 10000

deriving instance DecidableEq for Except

namespace YesDb

/-! ### chidb/util.py : byte helpers -/

/-- pack_uint8: one byte, big-endian (struct.pack with format B). -/
def pack_uint8 (value : Nat) : List Nat := [value % 256]

/-- pack_uint16: two bytes, big-endian (struct.pack with format H). -/
def pack_uint16 (value : Nat) : List Nat := [value / 256 % 256, value % 256]

/-- pack_uint32: four bytes, big-endian (struct.pack with format I). -/
def pack_uint32 (value : Nat) : List Nat :=
  [value / 2 ^ 24 % 256, value / 2 ^ 16 % 256, value / 2 ^ 8 % 256, value % 256]

/-- unpack_uint32 at an offset; struct.unpack_from raises when fewer than
four bytes remain, modelled by none. -/
def unpack_uint32 (data : List Nat) (offset : Nat) : Option Nat :=
  match (data.drop offset).take 4 with
  | [b0, b1, b2, b3] => some (b0 * 2 ^ 24 + b1 * 2 ^ 16 + b2 * 2 ^ 8 + b3)
  | _ => none

/-- The loop of pack_varint, driven by fuel so that the kernel can
evaluate it; the value itself is always a sufficient fuel since the
value strictly shrinks on every iteration. -/
def pack_varint_go : Nat → Nat → List Nat
  | 0, value => [value % 128]
  | fuel + 1, value =>
    if value < 128 then [value]
    else (value % 128 + 128) :: pack_varint_go fuel (value / 128)

/-- pack_varint: little-endian base-128.  The source loop appends
(value AND 0x7F) OR 0x80 while value at least 0x80, then the final low
byte; on a value below 128 the OR with 0x80 is addition of 128 and the
shift by 7 is division by 128. -/
def pack_varint (value : Nat) : List Nat := pack_varint_go value value

/-- The loop of unpack_varint: walks the bytes from the current offset,
accumulating seven payload bits per byte.  The accumulated bits never
overlap, so the source bit-OR is addition; a byte below 128 has the
continuation bit clear (all bytes in the store are below 256).
Running out of bytes mid-varint raises in the source, modelled by none.
pos counts the bytes consumed so far. -/
def varint_loop : List Nat → Nat → Nat → Nat → Option (Nat × Nat)
  | [], _, _, _ => none
  | b :: rest, value, shift, pos =>
    let value := value + b % 128 * 2 ^ shift
    if b % 256 < 128 then some (value, pos + 1)
    else varint_loop rest value (shift + 7) (pos + 1)

/-- unpack_varint(data, offset): returns (value, bytes consumed). -/
def unpack_varint (data : List Nat) (offset : Nat) : Option (Nat × Nat) :=
  varint_loop (data.drop offset) 0 0 0

/-- assert_valid_page_id(page_id, max_page): ValueError when the id is
negative or exceeds the maximum.  true means the assertion passes. -/
def assert_valid_page_id (page_id : Int) (max_page : Int) : Bool :=
  !(page_id < 0) && !(page_id > max_page)

/-! ### chidb/record.py : typed-tuple codec

Column values.  Floats are represented by their eight-byte big-endian
IEEE-754 image (struct.pack with format d is a bijection onto such byte
strings), and text by its UTF-8 byte string (str.encode is a bijection
onto valid UTF-8 byte strings); both conversions are therefore modelled
as the identity on this representation. -/
inductive SqlValue
  | null : SqlValue
  | int (i : Int) : SqlValue
  | float (bits : List Nat) : SqlValue
  | text (utf8 : List Nat) : SqlValue
  | blob (bytes : List Nat) : SqlValue
deriving DecidableEq, Repr

/-- Record._get_type_code (bool does not occur in the supported-value
domain of the spec and is omitted). -/
def get_type_code : SqlValue → Nat
  | .null => 0
  | .int _ => 1
  | .float _ => 2
  | .text _ => 3
  | .blob _ => 4

/-- Record._encode_value.  A negative integer is packed as its four-byte
two's-complement image: value AND 0xFFFFFFFF in Python is the
mathematical residue modulo 2^32. -/
def encode_value : SqlValue → List Nat
  | .null => []
  | .int i => if i < 0 then pack_uint32 (i % (2 ^ 32 : Int)).toNat else pack_varint i.toNat
  | .float bits => bits
  | .text b => pack_varint b.length ++ b
  | .blob b => pack_varint b.length ++ b

/-- Record.encode: header-size varint, then the header (column count and
one type-code varint per column), then each encoded column in order. -/
def Record.encode (values : List SqlValue) : List Nat :=
  let header := pack_varint values.length ++
    (values.map (fun v => pack_varint (get_type_code v))).flatten
  pack_varint header.length ++ header ++ (values.map encode_value).flatten

/-- Record._decode_value. For INTEGER the source first attempts a varint
(which only fails by running off the end of the buffer) and on failure
re-reads the same offset as a four-byte unsigned value, mapping the upper
half onto negatives; a missing uint32 raises, modelled by none. -/
def Record.decode_value (data : List Nat) (offset : Nat) (type_code : Nat) :
    Option (SqlValue × Nat) :=
  if type_code = 0 then some (.null, 0)
  else if type_code = 1 then
    match unpack_varint data offset with
    | some (v, consumed) => some (.int (v : Int), consumed)
    | none =>
      match unpack_uint32 data offset with
      | some v =>
        some (.int (if v > 0x7FFFFFFF then (v : Int) - 0x100000000 else (v : Int)), 4)
      | none => none
  else if type_code = 2 then
    let bits := (data.drop offset).take 8
    if bits.length = 8 then some (.float bits, 8) else none
  else if type_code = 3 then
    match unpack_varint data offset with
    | some (len, consumed) =>
      some (.text ((data.drop (offset + consumed)).take len), consumed + len)
    | none => none
  else if type_code = 4 then
    match unpack_varint data offset with
    | some (len, consumed) =>
      some (.blob ((data.drop (offset + consumed)).take len), consumed + len)
    | none => none
  else none

/-- The per-column loop at the end of Record.decode, threading the
offset left to right. -/
def Record.decode_columns (data : List Nat) : Nat → List Nat → Option (List SqlValue)
  | _, [] => some []
  | offset, c :: cs => do
    let (v, consumed) ← Record.decode_value data offset c
    let vs ← Record.decode_columns data (offset + consumed) cs
    some (v :: vs)

/-- The type-code reading loop of Record.decode: reads the given number
of varints, returning the codes and the offset after them. -/
def Record.read_type_codes (data : List Nat) : Nat → Nat → Option (List Nat × Nat)
  | offset, 0 => some ([], offset)
  | offset, k + 1 => do
    let (c, consumed) ← unpack_varint data offset
    let (cs, off) ← Record.read_type_codes data (offset + consumed) k
    some (c :: cs, off)

/-- Record.decode: header size (read but not used for positioning),
column count, type codes, then the column payloads in order.  Any raise
inside the source decoder is modelled by none. -/
def Record.decode (data : List Nat) : Option (List SqlValue) := do
  let (_header_size, c0) ← unpack_varint data 0
  let (num_columns, c1) ← unpack_varint data c0
  let (type_codes, off) ← Record.read_type_codes data (c0 + c1) num_columns
  Record.decode_columns data off type_codes

/-- The values for which the four-byte-negative fallback and the float
width play no role: INTEGER columns are non-negative and FLOAT columns
carry a full eight-byte IEEE-754 image (true of every Python float). -/
def GoodValue : SqlValue → Prop
  | .int i => 0 ≤ i
  | .float bits => bits.length = 8
  | _ => True

instance : DecidablePred GoodValue := fun v => by
  cases v <;> simp only [GoodValue] <;> infer_instance

end YesDb

namespace YesDb

/-! ### chidb/btree.py : the B-tree

Pages are modelled at the parsed-cell level: a node is its ordered cell
list (plus, for internal nodes, the right-child pointer), and every cell
carries the byte offset at which it was written, so that the free-space
and used-space computations of the source are reproduced exactly.  All
the byte strings the source lays out inside a page are recovered from
this data; cell bytes made unreachable by _delete_cell are forgotten by
the source free-space computation exactly as they are here.  The Python
list.insert and del used on cell-pointer arrays always receive an index
that is at most the current length, where they agree with List.insertIdx
and List.eraseIdx. -/

def NODE_HEADER_SIZE : Nat := 7

/-- One leaf cell: (key varint, payload-length varint, payload), written
at the recorded page offset. -/
structure LeafCell where
  key : Nat
  record_data : List Nat
  offset : Nat
deriving DecidableEq, Repr, Inhabited

/-- One internal cell: (key varint, child-page uint32), written at the
recorded page offset. -/
structure InternalCell where
  key : Nat
  child_page : Nat
  offset : Nat
deriving DecidableEq, Repr, Inhabited

/-- BTreeNode: the parsed content of a page holding a node. -/
inductive BTreeNode
  | leaf (cells : List LeafCell) : BTreeNode
  | internal (cells : List InternalCell) (right_page : Nat) : BTreeNode
deriving DecidableEq, Repr

/-- The pager as seen by the B-tree: page size, page counter (page ids
are allocated as in Pager.allocate_page) and the node content of each
page.  A BTree object is this shared state together with its current
root page, which the operations below take and return explicitly. -/
structure BTState where
  page_size : Nat
  num_pages : Nat
  pages : List (Nat × BTreeNode)
deriving DecidableEq, Repr

/-- Look a page up in the store (read_page followed by the BTreeNode
header parse). -/
def pages_get (st : BTState) (pid : Nat) : Option BTreeNode :=
  (st.pages.find? (fun p => p.1 == pid)).map (fun p => p.2)

/-- Overwrite one page (Pager.write_page). -/
def store_write : List (Nat × BTreeNode) → Nat → BTreeNode → List (Nat × BTreeNode)
  | [], pid, n => [(pid, n)]
  | (k, v) :: rest, pid, n =>
    if k = pid then (k, n) :: rest else (k, v) :: store_write rest pid n

def BTState.write (st : BTState) (pid : Nat) (n : BTreeNode) : BTState :=
  { st with pages := store_write st.pages pid n }

def node_num_keys : BTreeNode → Nat
  | .leaf cells => cells.length
  | .internal cells _ => cells.length

def node_keys : BTreeNode → List Nat
  | .leaf cells => cells.map (fun c => c.key)
  | .internal cells _ => cells.map (fun c => c.key)

def node_offsets : BTreeNode → List Nat
  | .leaf cells => cells.map (fun c => c.offset)
  | .internal cells _ => cells.map (fun c => c.offset)

/-- BTreeNode.find_key_index: binary search for the lowest index whose
key is at least the probe key.  The source while loop is driven here by
fuel; the interval length shrinks by at least one per iteration, so
num_keys is always sufficient fuel. -/
def find_key_index_loop (keys : List Nat) (key : Nat) : Nat → Nat → Nat → Nat
  | 0, left, _ => left
  | fuel + 1, left, right =>
    if left < right then
      let mid := (left + right) / 2
      let mid_key := keys.getD mid 0
      if mid_key < key then find_key_index_loop keys key fuel (mid + 1) right
      else find_key_index_loop keys key fuel left mid
    else left

def find_key_index (node : BTreeNode) (key : Nat) : Nat :=
  find_key_index_loop (node_keys node) key (node_num_keys node) 0 (node_num_keys node)

/-- BTree._find_free_space: page_size for an empty node, else the least
cell offset. -/
def find_free_space (page_size : Nat) (node : BTreeNode) : Nat :=
  if node_num_keys node = 0 then page_size
  else (node_offsets node).foldl (fun m o => if o < m then o else m) page_size

/-- BTree._calculate_used_space: header, cell-pointer array, cells. -/
def calculate_used_space (page_size : Nat) (node : BTreeNode) : Nat :=
  NODE_HEADER_SIZE + node_num_keys node * 2 + (page_size - find_free_space page_size node)

/-- BTree._needs_split: more than three quarters full, or 100 keys. -/
def needs_split (page_size : Nat) (node : BTreeNode) (new_cell_size : Nat) : Bool :=
  calculate_used_space page_size node + new_cell_size > page_size * 3 / 4 ||
    node_num_keys node ≥ 100

/-- Size in bytes of an encoded leaf cell, as computed in
BTree._insert_into_leaf. -/
def leaf_cell_size (key : Nat) (record_data : List Nat) : Nat :=
  (pack_varint key).length + (pack_varint record_data.length).length + record_data.length

/-- Size in bytes of an encoded internal cell (varint key plus uint32
child), as computed in BTree._insert_split_into_internal and
_insert_internal_cell. -/
def internal_cell_size (key : Nat) : Nat :=
  (pack_varint key).length + 4

/-- BTree._insert_leaf_cell: write the cell bytes at
free-offset minus cell-size, shift the pointer array (list insertion),
bump num_keys, write the page back.  Returns the written state and the
new cell list. -/
def insert_leaf_cell (st : BTState) (pid : Nat) (cells : List LeafCell)
    (index key : Nat) (record_data : List Nat) : BTState × List LeafCell :=
  let cell_len := leaf_cell_size key record_data
  let free_offset := find_free_space st.page_size (.leaf cells)
  let cell_offset := free_offset - cell_len
  let cells := cells.insertIdx index ⟨key, record_data, cell_offset⟩
  (st.write pid (.leaf cells), cells)

/-- BTree._insert_internal_cell, analogously. -/
def insert_internal_cell (st : BTState) (pid : Nat) (cells : List InternalCell)
    (right_page index key child_page : Nat) : BTState × List InternalCell :=
  let cell_len := internal_cell_size key
  let free_offset := find_free_space st.page_size (.internal cells right_page)
  let cell_offset := free_offset - cell_len
  let cells := cells.insertIdx index ⟨key, child_page, cell_offset⟩
  (st.write pid (.internal cells right_page), cells)

/-- BTree._delete_cell: shift the cell pointers down over the deleted
index and decrement num_keys (the cell bytes, no longer pointed to, drop
out of the free-space computation exactly as in the source).  The page
is written back by the callers, as in the source. -/
def delete_cell (cells : List LeafCell) (index : Nat) : List LeafCell :=
  cells.eraseIdx index

/-- BTree._create_leaf_node: allocate a fresh page and initialize an
empty leaf on it. -/
def create_leaf_node (st : BTState) : BTState × Nat :=
  let pid := st.num_pages
  let st := { st with num_pages := st.num_pages + 1 }
  (st.write pid (.leaf []), pid)

/-- BTree._create_internal_node: allocate a fresh page and initialize an
empty internal node with right pointer 0. -/
def create_internal_node (st : BTState) : BTState × Nat :=
  let pid := st.num_pages
  let st := { st with num_pages := st.num_pages + 1 }
  (st.write pid (.internal [] 0), pid)

/-- BTree._create_new_root: a fresh internal page whose only cell is
(split_key, left_page) and whose right pointer is right_page; its page
id becomes the root and is returned. -/
def create_new_root (st : BTState) (split_key left_page right_page : Nat) : BTState × Nat :=
  let (st, new_root_id) := create_internal_node st
  let (st, _) := insert_internal_cell st new_root_id [] right_page 0 split_key left_page
  (st, new_root_id)

/-- The rebuild loops of _split_leaf: re-insert the listed (key, data)
pairs one by one at indices 0, 1, 2, ... via _insert_leaf_cell. -/
def insert_cells_leaf (st : BTState) (pid : Nat) :
    List LeafCell → Nat → List (Nat × List Nat) → BTState × List LeafCell
  | cells, _, [] => (st, cells)
  | cells, i, (k, d) :: rest =>
    let (st, cells) := insert_leaf_cell st pid cells i k d
    insert_cells_leaf st pid cells (i + 1) rest

/-- The rebuild loops of _split_internal, analogously. -/
def insert_cells_internal (st : BTState) (pid : Nat) (right_page : Nat) :
    List InternalCell → Nat → List (Nat × Nat) → BTState × List InternalCell
  | cells, _, [] => (st, cells)
  | cells, i, (k, c) :: rest =>
    let (st, cells) := insert_internal_cell st pid cells right_page i k c
    insert_cells_internal st pid right_page cells (i + 1) rest

/-- BTree._split_leaf: gather existing cells plus the pending one in
order, clear the original node, keep the first half there, put the
second half on a freshly allocated leaf, and promote the first key of
the right half (which also stays in the right leaf).  Returns
(split_key, new_page_id). -/
def split_leaf (st : BTState) (pid : Nat) (cells : List LeafCell)
    (key : Nat) (record_data : List Nat) (insert_idx : Nat) : BTState × (Nat × Nat) :=
  let (st, new_page_id) := create_leaf_node st
  let all_cells := (cells.map (fun c => (c.key, c.record_data))).insertIdx
    insert_idx (key, record_data)
  let split_point := all_cells.length / 2
  let st := st.write pid (.leaf [])
  let (st, _) := insert_cells_leaf st pid [] 0 (all_cells.take split_point)
  let (st, _) := insert_cells_leaf st new_page_id [] 0 (all_cells.drop split_point)
  let split_key := (all_cells.getD split_point (0, [])).1
  (st, (split_key, new_page_id))

/-- BTree._split_internal: as for leaves, except that the middle cell is
promoted and dropped from both halves (its child pointer is lost), and
the freshly allocated right node keeps right pointer 0 while the left
node keeps the original right pointer, exactly as in the source. -/
def split_internal (st : BTState) (pid : Nat) (cells : List InternalCell)
    (right_page key child_page insert_idx : Nat) : BTState × (Nat × Nat) :=
  let (st, new_page_id) := create_internal_node st
  let all_cells := (cells.map (fun c => (c.key, c.child_page))).insertIdx
    insert_idx (key, child_page)
  let split_point := all_cells.length / 2
  let st := st.write pid (.internal [] right_page)
  let (st, _) := insert_cells_internal st pid right_page [] 0 (all_cells.take split_point)
  let (st, _) := insert_cells_internal st new_page_id 0 [] 0 (all_cells.drop (split_point + 1))
  let split_key := (all_cells.getD split_point (0, 0)).1
  (st, (split_key, new_page_id))

/-- BTree._insert_split_into_internal. -/
def insert_split_into_internal (st : BTState) (pid : Nat) (cells : List InternalCell)
    (right_page split_key new_page : Nat) : BTState × Option (Nat × Nat) :=
  let insert_idx := find_key_index (.internal cells right_page) split_key
  if needs_split st.page_size (.internal cells right_page) (internal_cell_size split_key) then
    let (st, r) := split_internal st pid cells right_page split_key new_page insert_idx
    (st, some r)
  else
    let (st, _) := insert_internal_cell st pid cells right_page insert_idx split_key new_page
    (st, none)

/-- BTree._insert_into_leaf: update in place on an exact key match,
split when needed, else plain insertion at the search index. -/
def insert_into_leaf (st : BTState) (pid : Nat) (cells : List LeafCell)
    (key : Nat) (record_data : List Nat) : BTState × Option (Nat × Nat) :=
  let insert_idx := find_key_index (.leaf cells) key
  if (insert_idx < cells.length) ∧ (cells.getD insert_idx default).key = key then
    let cells := delete_cell cells insert_idx
    let (st, _) := insert_leaf_cell st pid cells insert_idx key record_data
    (st, none)
  else if needs_split st.page_size (.leaf cells) (leaf_cell_size key record_data) then
    let (st, r) := split_leaf st pid cells key record_data insert_idx
    (st, some r)
  else
    let (st, _) := insert_leaf_cell st pid cells insert_idx key record_data
    (st, none)

/-- BTree._insert_recursive together with _insert_into_internal, driven
by fuel (the recursion depth never exceeds the page count on any state
the operations build; running out of fuel or hitting a missing page is a
modelling artifact and leaves the state unchanged). -/
def insert_recursive : Nat → BTState → Nat → Nat → List Nat → BTState × Option (Nat × Nat)
  | 0, st, _, _, _ => (st, none)
  | fuel + 1, st, pid, key, record_data =>
    match pages_get st pid with
    | none => (st, none)
    | some (.leaf cells) => insert_into_leaf st pid cells key record_data
    | some (.internal cells right_page) =>
      let insert_idx := find_key_index (.internal cells right_page) key
      let child_page :=
        if insert_idx < cells.length then (cells.getD insert_idx default).child_page
        else right_page
      let (st, split_result) := insert_recursive fuel st child_page key record_data
      match split_result with
      | none => (st, none)
      | some (split_key, new_page) =>
        insert_split_into_internal st pid cells right_page split_key new_page

/-- BTree.insert: encode the record, insert recursively, and on a root
split install a new root; returns the state and the (possibly new) root
page of the tree. -/
def btree_insert (st : BTState) (root key : Nat) (record : List SqlValue) :
    BTState × Nat :=
  let record_data := Record.encode record
  let (st1, split_result) := insert_recursive st.num_pages st root key record_data
  match split_result with
  | none => (st1, root)
  | some (split_key, new_page) => create_new_root st1 split_key root new_page

/-- BTree._search_recursive.  A record that fails to decode raises in
the source; fuel exhaustion and missing pages are modelling artifacts,
also reported as errors. -/
def search_recursive : Nat → BTState → Nat → Nat → Except String (Option (List SqlValue))
  | 0, _, _, _ => .error "out of fuel"
  | fuel + 1, st, pid, key =>
    match pages_get st pid with
    | none => .error "missing page"
    | some (.leaf cells) =>
      let idx := find_key_index (.leaf cells) key
      if idx < cells.length then
        let c := cells.getD idx default
        if c.key = key then
          match Record.decode c.record_data with
          | some r => .ok (some r)
          | none => .error "corrupt record"
        else .ok none
      else .ok none
    | some (.internal cells right_page) =>
      let idx := find_key_index (.internal cells right_page) key
      if idx < cells.length then
        search_recursive fuel st (cells.getD idx default).child_page key
      else if right_page ≠ 0 then search_recursive fuel st right_page key
      else .ok none

def btree_search (st : BTState) (root key : Nat) :
    Except String (Option (List SqlValue)) :=
  search_recursive st.num_pages st root key

/-- The leaf part of BTree._scan_recursive: decode every record of the
leaf in order. -/
def decode_leaf_cells : List LeafCell → Except String (List (Nat × List SqlValue))
  | [] => .ok []
  | c :: rest =>
    match Record.decode c.record_data with
    | some r => do
      let tl ← decode_leaf_cells rest
      .ok ((c.key, r) :: tl)
    | none => .error "corrupt record"

/-- The child loop of BTree._scan_recursive over an internal node. -/
def scan_children (f : Nat → Except String (List (Nat × List SqlValue))) :
    List InternalCell → Except String (List (Nat × List SqlValue))
  | [] => .ok []
  | c :: rest => do
    let xs ← f c.child_page
    let ys ← scan_children f rest
    .ok (xs ++ ys)

/-- BTree._scan_recursive: leaves emit their cells in order; an internal
node visits each child then, when it is non-zero, the right pointer. -/
def scan_recursive : Nat → BTState → Nat → Except String (List (Nat × List SqlValue))
  | 0, _, _ => .error "out of fuel"
  | fuel + 1, st, pid =>
    match pages_get st pid with
    | none => .error "missing page"
    | some (.leaf cells) => decode_leaf_cells cells
    | some (.internal cells right_page) => do
      let xs ← scan_children (scan_recursive fuel st) cells
      if right_page ≠ 0 then do
        let ys ← scan_recursive fuel st right_page
        .ok (xs ++ ys)
      else .ok xs

def btree_scan (st : BTState) (root : Nat) :
    Except String (List (Nat × List SqlValue)) :=
  scan_recursive st.num_pages st root

/-- The keys yielded by a scan, in order (none when the scan raises). -/
def scan_keys (st : BTState) (root : Nat) : Option (List Nat) :=
  match btree_scan st root with
  | .ok rows => some (rows.map (fun r => r.1))
  | .error _ => none

/-- BTree._delete_recursive: descend exactly as search does; in the leaf
remove the cell on an exact match and write the page back.  Returns the
new state and whether a key was removed. -/
def delete_recursive : Nat → BTState → Nat → Nat → BTState × Bool
  | 0, st, _, _ => (st, false)
  | fuel + 1, st, pid, key =>
    match pages_get st pid with
    | none => (st, false)
    | some (.leaf cells) =>
      let idx := find_key_index (.leaf cells) key
      if idx < cells.length ∧ (cells.getD idx default).key = key then
        (st.write pid (.leaf (delete_cell cells idx)), true)
      else (st, false)
    | some (.internal cells right_page) =>
      let idx := find_key_index (.internal cells right_page) key
      if idx < cells.length then
        delete_recursive fuel st (cells.getD idx default).child_page key
      else if right_page ≠ 0 then delete_recursive fuel st right_page key
      else (st, false)

def btree_delete (st : BTState) (root key : Nat) : BTState × Bool :=
  delete_recursive st.num_pages st root key

/-- A fresh tree over a fresh pager: the pager header occupies page 0,
BTree.__init__ with no root then allocates the root leaf (page 1).
Returns the state together with the tree root. -/
def bt_new (page_size : Nat) : BTState × Nat :=
  let st : BTState := { page_size := page_size, num_pages := 1, pages := [] }
  create_leaf_node st

/-- One insert or delete operation, as issued through BTree.insert and
BTree.delete. -/
inductive BOp
  | ins (key : Nat) (record : List SqlValue) : BOp
  | del (key : Nat) : BOp
deriving DecidableEq, Repr

def apply_ops : BTState × Nat → List BOp → BTState × Nat
  | (st, root), [] => (st, root)
  | (st, root), .ins k r :: rest => apply_ops (btree_insert st root k r) rest
  | (st, root), .del k :: rest => apply_ops ((btree_delete st root k).1, root) rest

/-- The search result the specification promises (stated from the spec
words, for comparison with the code): the payload of the most recent
insert of the key, unless the key was deleted afterwards. -/
def spec_search_expected (ops : List BOp) (key : Nat) : Option (List SqlValue) :=
  ops.foldl
    (fun acc op =>
      match op with
      | .ins k r => if k = key then some r else acc
      | .del k => if k = key then none else acc)
    none

/-- A one-column record whose encoding is 100 bytes long, so that a
512-byte page splits after three resident cells. -/
def cex_record : List SqlValue := [.text (List.replicate 96 97)]

/-- Four inserts on a fresh 512-byte-page tree: the fourth overflows the
root leaf, which splits promoting key 30. -/
def c1_ops : List BOp :=
  [.ins 10 cex_record, .ins 20 cex_record, .ins 30 cex_record, .ins 40 cex_record]

/-- Two further inserts: the sixth overflows the right leaf, whose split
key 50 is inserted into the root with the new page as its cell child. -/
def c2_ops : List BOp :=
  c1_ops ++ [.ins 50 cex_record, .ins 60 cex_record]

/-- Strict ascension of a key list (stated from the spec words, for
comparison with the scan output). -/
def strictly_ascending : List Nat → Bool
  | [] => true
  | [_] => true
  | a :: b :: rest => a < b && strictly_ascending (b :: rest)

end YesDb

namespace YesDb

/-! ### chidb/pager.py : the page cache (read path) -/

/-- Ordered-dictionary update: replace the value of an existing key,
append a missing key at the end (Python dict insertion semantics). -/
def assoc_write {α β : Type} [BEq α] : List (α × β) → α → β → List (α × β)
  | [], key, v => [(key, v)]
  | (k, w) :: rest, key, v =>
    if k == key then (k, v) :: rest else (k, w) :: assoc_write rest key v

/-- The pager state relevant to read_page: page size, page count, the
page cache, and the bytes of the backing file. -/
structure PagerState where
  page_size : Nat
  num_pages : Nat
  cache : List (Int × List Nat)
  file_data : List Nat
deriving DecidableEq, Repr

/-- The bytes the file read in Pager.read_page returns (seek to
id times page-size, read page-size bytes; a short file yields a short
read, as with the Python read call). -/
def page_slice (st : PagerState) (page_id : Int) : List Nat :=
  (st.file_data.drop (page_id.toNat * st.page_size)).take st.page_size

/-- Pager.read_page: validate the id against the page count, serve a
cache hit from the cache, otherwise read from the file, fail on a short
read, and cache the buffer.  The two ValueError messages of
assert_valid_page_id are collapsed into the single error OutOfRange. -/
def read_page (st : PagerState) (page_id : Int) :
    Except String (List Nat × PagerState) :=
  if ¬ assert_valid_page_id page_id ((st.num_pages : Int) - 1) then
    .error "OutOfRange"
  else
    match st.cache.find? (fun p => p.1 == page_id) with
    | some entry => .ok (entry.2, st)
    | none =>
      let data := page_slice st page_id
      if data.length ≠ st.page_size then .error "IOError"
      else .ok (data, { st with cache := assoc_write st.cache page_id data })

/-! ### chidb/dbm.py : the virtual machine -/

/-- The DBM opcodes. -/
inductive Opcode
  | OPEN_READ | OPEN_WRITE | CLOSE | REWIND | NEXT | KEY | DATA | INSERT | HALT
  | RESULT_ROW | INTEGER | STRING | NULL | MAKE_RECORD
  | EQ | NE | LT | LE | GT | GE | JUMP | JUMP_IF_FALSE | SEEK | DELETE | COLUMN
deriving DecidableEq, Repr, Inhabited

/-- A DBM instruction: opcode plus four operands; p4 carries text. -/
structure Instruction where
  opcode : Opcode
  p1 : Int := 0
  p2 : Int := 0
  p3 : Int := 0
  p4 : Option String := none
deriving DecidableEq, Repr, Inhabited

/-- The native values the source pushes on the machine stack: None,
int, str, bool, decoded Record objects, and floats (as their IEEE-754
image, as in the record codec). -/
inductive DbVal
  | null : DbVal
  | int (i : Int) : DbVal
  | str (s : String) : DbVal
  | bool (b : Bool) : DbVal
  | float (bits : List Nat) : DbVal
  | record (values : List SqlValue) : DbVal
deriving DecidableEq, Repr

/-- Python truthiness of a stack value (None, 0, the empty string and
False are falsy; Record objects are always truthy). -/
def dbval_truthy : DbVal → Bool
  | .null => false
  | .int i => i ≠ 0
  | .str s => s ≠ ""
  | .bool b => b
  | .float bits => bits ≠ pack_uint32 0 ++ pack_uint32 0
  | .record _ => true

/-- Python equality on stack values: numbers compare across bool/int
(True equals 1), everything else by structure, mixed types unequal. -/
def py_eq : DbVal → DbVal → Bool
  | .null, .null => true
  | .int a, .int b => a == b
  | .bool a, .int b => (if a then 1 else 0 : Int) == b
  | .int a, .bool b => a == (if b then 1 else 0 : Int)
  | .bool a, .bool b => a == b
  | .str a, .str b => a == b
  | .float a, .float b => a == b
  | .record a, .record b => a == b
  | _, _ => false

/-- Python strict order on stack values where it is defined; none models
the TypeError of an unsupported comparison.  (Float ordering is not
required by any claim and is left undefined.) -/
def py_lt : DbVal → DbVal → Option Bool
  | .int a, .int b => some (a < b)
  | .bool a, .int b => some ((if a then 1 else 0 : Int) < b)
  | .int a, .bool b => some (a < (if b then 1 else 0 : Int))
  | .bool a, .bool b => some ((if a then 1 else 0 : Int) < (if b then 1 else 0))
  | .str a, .str b => some (a < b)
  | _, _ => none

/-- A cursor: the key of its BTree object in the machine tree cache,
writability, the scan snapshot, the position, and the validity flag. -/
structure Cursor where
  btree_key : Nat
  writable : Bool
  data : List (Nat × List SqlValue)
  position : Int
  valid : Bool
deriving DecidableEq, Repr

/-- Cursor.rewind: snapshot the tree with scan, position at the first
record when there is one. -/
def cursor_rewind (st : BTState) (root : Nat) (c : Cursor) : Except String Cursor := do
  let data ← btree_scan st root
  if data.length ≠ 0 then
    .ok { c with data := data, position := 0, valid := true }
  else
    .ok { c with data := data, position := -1, valid := false }

/-- Cursor.next: advance, invalidating at the end.  Returns the moved
cursor and whether the move succeeded. -/
def cursor_next (c : Cursor) : Cursor × Bool :=
  if ¬ c.valid then (c, false)
  else
    let position := c.position + 1
    if position ≥ (c.data.length : Int) then
      ({ c with position := position, valid := false }, false)
    else ({ c with position := position }, true)

/-- Cursor.get_key. -/
def cursor_get_key (c : Cursor) : Option Nat :=
  if ¬ c.valid ∨ c.position < 0 ∨ c.position ≥ (c.data.length : Int) then none
  else some ((c.data.getD c.position.toNat (0, [])).1)

/-- Cursor.get_data.  (The source returns the decoded Record.) -/
def cursor_get_data (c : Cursor) : Option (List SqlValue) :=
  if ¬ c.valid ∨ c.position < 0 ∨ c.position ≥ (c.data.length : Int) then none
  else some ((c.data.getD c.position.toNat (0, [])).2)

/-- The machine state: the shared pager pages, the tree cache
(dictionary key, which is the root page the tree was opened at, to the
current root_page field of that BTree object), the cursor table, the
stack (head is the top), the result rows, the program counter and the
halted flag. -/
structure Machine where
  bt : BTState
  btrees : List (Nat × Nat)
  cursors : List (Int × Cursor)
  stack : List DbVal
  result_rows : List (List DbVal)
  pc : Int
  halted : Bool
deriving DecidableEq, Repr

def cursors_get (m : Machine) (cid : Int) : Option Cursor :=
  (m.cursors.find? (fun p => p.1 == cid)).map (fun p => p.2)

def btrees_get (m : Machine) (key : Nat) : Option Nat :=
  (m.btrees.find? (fun p => p.1 == key)).map (fun p => p.2)

/-- _op_open_read / _op_open_write: open the tree at the root page
(creating the cache entry when absent) and install a fresh cursor. -/
def op_open (m : Machine) (cid : Int) (root_page : Nat) (writable : Bool) : Machine :=
  let m :=
    match btrees_get m root_page with
    | some _ => m
    | none => { m with btrees := assoc_write m.btrees root_page root_page }
  { m with cursors :=
      (assoc_write m.cursors cid
        { btree_key := root_page, writable := writable, data := [],
          position := -1, valid := false }) }

/-- _op_close: drop the cursor. -/
def op_close (m : Machine) (cid : Int) : Machine :=
  { m with cursors := m.cursors.filter (fun p => p.1 != cid) }

/-- The current root of the BTree object a cursor refers to (the
root_page attribute of the shared object in the btrees dictionary). -/
def cursor_root (m : Machine) (c : Cursor) : Nat :=
  (btrees_get m c.btree_key).getD c.btree_key

/-- _op_rewind: rewind the cursor; when the tree is empty jump (the
source sets pc to the target minus one and the main loop increments). -/
def op_rewind (m : Machine) (cid : Int) (jump_addr : Int) : Except String Machine := do
  match cursors_get m cid with
  | none => .error "KeyError: cursor"
  | some c =>
    let c ← cursor_rewind m.bt (cursor_root m c) c
    let m := { m with cursors := assoc_write m.cursors cid c }
    if ¬ c.valid then .ok { m with pc := jump_addr - 1 }
    else .ok m

/-- _op_next: advance the cursor and jump back when it moved. -/
def op_next (m : Machine) (cid : Int) (jump_addr : Int) : Except String Machine :=
  match cursors_get m cid with
  | none => .error "KeyError: cursor"
  | some c =>
    let (c, moved) := cursor_next c
    let m := { m with cursors := assoc_write m.cursors cid c }
    if moved then .ok { m with pc := jump_addr - 1 }
    else .ok m

/-- _op_key: push the current key (None when invalid). -/
def op_key (m : Machine) (cid : Int) : Except String Machine :=
  match cursors_get m cid with
  | none => .error "KeyError: cursor"
  | some c =>
    match cursor_get_key c with
    | some k => .ok { m with stack := .int (k : Int) :: m.stack }
    | none => .ok { m with stack := .null :: m.stack }

/-- _op_data: push the current record (None when invalid). -/
def op_data (m : Machine) (cid : Int) : Except String Machine :=
  match cursors_get m cid with
  | none => .error "KeyError: cursor"
  | some c =>
    match cursor_get_data c with
    | some r => .ok { m with stack := .record r :: m.stack }
    | none => .ok { m with stack := .null :: m.stack }

/-- The wire-faithful conversion of a stack value into a record column:
booleans encode through pack_uint8 exactly as the INTEGER varints 0 and
1 do, so they become integers; a Record on the stack has no type code
and raises. -/
def dbval_to_sql : DbVal → Option SqlValue
  | .null => some .null
  | .int i => some (.int i)
  | .bool b => some (.int (if b then 1 else 0))
  | .str s => some (.text (s.toUTF8.toList.map (fun b => b.toNat)))
  | .float bits => some (.float bits)
  | .record _ => none

def dbvals_to_sql : List DbVal → Option (List SqlValue)
  | [] => some []
  | v :: rest => do
    let s ← dbval_to_sql v
    let tl ← dbvals_to_sql rest
    some (s :: tl)

/-- _op_make_record: pop p1 values, restore their push order, build a
Record. -/
def op_make_record (m : Machine) (num_fields : Int) : Except String Machine :=
  let n := num_fields.toNat
  if (m.stack.length : Int) < num_fields then .error "MAKE_RECORD requires values"
  else
    match dbvals_to_sql (m.stack.take n).reverse with
    | some values => .ok { m with stack := .record values :: m.stack.drop n }
    | none => .error "TypeError: unsupported record value"

/-- _op_insert: pop the record then the key; the cursor must be
writable; insert into the BTree object backing the cursor, whose
root_page field (the btrees entry) a split updates. -/
def op_insert (m : Machine) (cid : Int) : Except String Machine :=
  if m.stack.length < 2 then .error "INSERT requires key and record"
  else
    match m.stack with
    | record :: key :: rest =>
      match cursors_get m cid with
      | none => .error "KeyError: cursor"
      | some c =>
        if ¬ c.writable then .error "Cannot insert into read-only cursor"
        else
          match record, key with
          | .record values, .int k =>
            if k < 0 then .error "ValueError: negative key"
            else
              let (st, new_root) := btree_insert m.bt (cursor_root m c) k.toNat values
              .ok { m with
                    bt := st
                    btrees := assoc_write m.btrees c.btree_key new_root
                    stack := rest }
          | _, _ => .error "TypeError: INSERT operands"
    | _ => .error "INSERT requires key and record"

/-- _op_result_row: pop p1 values, restore their push order, publish
the row. -/
def op_result_row (m : Machine) (num_columns : Int) : Except String Machine :=
  let n := num_columns.toNat
  if (m.stack.length : Int) < num_columns then .error "RESULT_ROW requires values"
  else .ok { m with
             stack := m.stack.drop n
             result_rows := m.result_rows ++ [(m.stack.take n).reverse] }

/-- _op_compare: pop right then left, push the Boolean comparison. -/
def op_compare (m : Machine) (opcode : Opcode) : Except String Machine :=
  if m.stack.length < 2 then .error "Comparison requires 2 values"
  else
    match m.stack with
    | right :: left :: rest =>
      let result : Option Bool :=
        match opcode with
        | .EQ => some (py_eq left right)
        | .NE => some (!py_eq left right)
        | .LT => py_lt left right
        | .LE => match py_lt right left with
                 | some b => some (!b)
                 | none => none
        | .GT => py_lt right left
        | .GE => match py_lt left right with
                 | some b => some (!b)
                 | none => none
        | _ => none
      match result with
      | some b => .ok { m with stack := .bool b :: rest }
      | none => .error "TypeError: unsupported comparison"
    | _ => .error "Comparison requires 2 values"

/-- _op_delete: require a writable cursor positioned at a valid record,
read the current key, and only clear the validity flag (the source
comments that actual removal from the B-tree is left out). -/
def op_delete (m : Machine) (cid : Int) : Except String Machine :=
  match cursors_get m cid with
  | none => .error "KeyError: cursor"
  | some c =>
    if ¬ c.writable then .error "Cannot delete from read-only cursor"
    else if ¬ c.valid then .error "Cursor not pointing to valid record"
    else
      let _key := cursor_get_key c
      .ok { m with cursors := assoc_write m.cursors cid { c with valid := false } }

/-- The column-to-stack conversion used by _op_column (the source holds
decoded Python values; text surfaces as str, which requires the stored
bytes to be valid UTF-8). -/
def sql_to_dbval : SqlValue → Except String DbVal
  | .null => .ok .null
  | .int i => .ok (.int i)
  | .float bits => .ok (.float bits)
  | .text b =>
    match String.fromUTF8? (ByteArray.mk ⟨b.map (fun x => UInt8.ofNat x)⟩) with
    | some s => .ok (.str s)
    | none => .error "UnicodeDecodeError"
  | .blob _ => .error "blob on stack not modelled"

/-- _op_column: push the indexed field of the current record, None when
the cursor is invalid or the index is out of range. -/
def op_column (m : Machine) (cid : Int) (column_index : Int) : Except String Machine :=
  match cursors_get m cid with
  | none => .error "KeyError: cursor"
  | some c =>
    match cursor_get_data c with
    | none => .ok { m with stack := .null :: m.stack }
    | some values =>
      if h : column_index.toNat < values.length ∧ 0 ≤ column_index then do
        let v ← sql_to_dbval (values.getD column_index.toNat .null)
        .ok { m with stack := v :: m.stack }
      else .ok { m with stack := .null :: m.stack }

/-- _op_seek: position the cursor at an exact key (rescanning when the
snapshot is empty), setting validity accordingly. -/
def op_seek (m : Machine) (cid : Int) (key : Int) : Except String Machine := do
  match cursors_get m cid with
  | none => .error "KeyError: cursor"
  | some c =>
    let c ←
      if c.data.length = 0 then do
        let data ← btree_scan m.bt (cursor_root m c)
        pure { c with data := data }
      else pure c
    match c.data.findIdx? (fun p => (p.1 : Int) == key) with
    | some i =>
      .ok { m with cursors :=
            (assoc_write m.cursors cid { c with position := (i : Int), valid := true }) }
    | none =>
      .ok { m with cursors := assoc_write m.cursors cid { c with valid := false } }

/-- DatabaseMachine._execute_instruction: the dispatch table. -/
def exec_instruction (m : Machine) (instr : Instruction) : Except String Machine :=
  match instr.opcode with
  | .OPEN_READ => .ok (op_open m instr.p1 instr.p2.toNat false)
  | .OPEN_WRITE => .ok (op_open m instr.p1 instr.p2.toNat true)
  | .CLOSE => .ok (op_close m instr.p1)
  | .REWIND => op_rewind m instr.p1 instr.p2
  | .NEXT => op_next m instr.p1 instr.p2
  | .KEY => op_key m instr.p1
  | .DATA => op_data m instr.p1
  | .INSERT => op_insert m instr.p1
  | .HALT => .ok { m with halted := true }
  | .RESULT_ROW => op_result_row m instr.p1
  | .INTEGER => .ok { m with stack := .int instr.p1 :: m.stack }
  | .STRING => .ok { m with stack :=
      (match instr.p4 with | some s => .str s | none => .null) :: m.stack }
  | .NULL => .ok { m with stack := .null :: m.stack }
  | .MAKE_RECORD => op_make_record m instr.p1
  | .SEEK => op_seek m instr.p1 instr.p2
  | .JUMP => .ok { m with pc := instr.p1 - 1 }
  | .JUMP_IF_FALSE =>
    match m.stack with
    | [] => .error "JUMP_IF_FALSE requires value"
    | v :: rest =>
      if ¬ dbval_truthy v then .ok { m with stack := rest, pc := instr.p1 - 1 }
      else .ok { m with stack := rest }
  | .DELETE => op_delete m instr.p1
  | .COLUMN => op_column m instr.p1 instr.p2
  | .EQ | .NE | .LT | .LE | .GT | .GE => op_compare m instr.opcode

/-- The main loop of DatabaseMachine.execute, driven by fuel (the
source loop is bounded by the cursor snapshots; a negative program
counter, which Python would wrap around, never arises from generated
programs and is reported as an error). -/
def dbm_run : Nat → Machine → List Instruction → Except String Machine
  | 0, _, _ => .error "out of fuel"
  | fuel + 1, m, program =>
    if m.pc < (program.length : Int) ∧ ¬ m.halted then
      if m.pc < 0 then .error "negative program counter"
      else
        match program.get? m.pc.toNat with
        | none => .error "bad program counter"
        | some instr => do
          let m ← exec_instruction m instr
          if ¬ m.halted then dbm_run fuel { m with pc := m.pc + 1 } program
          else dbm_run fuel m program
    else .ok m

/-- DatabaseMachine.execute: run from the reset state over the given
pager pages and return the result rows (with the final machine). -/
def dbm_execute (st : BTState) (program : List Instruction) (fuel : Nat) :
    Except String (List (List DbVal) × Machine) := do
  let m : Machine :=
    { bt := st, btrees := [], cursors := [], stack := [], result_rows := [],
      pc := 0, halted := false }
  let m ← dbm_run fuel m program
  .ok (m.result_rows, m)

/-- The machine op_delete produces: the same machine with only the
validity flag of the addressed cursor cleared. -/
def machine_invalidate (m : Machine) (cid : Int) (c : Cursor) : Machine :=
  { m with cursors := assoc_write m.cursors cid { c with valid := false } }

/-- A concrete pager for the C9 witness: two 512-byte pages on file,
empty cache. -/
def c9_pager : PagerState :=
  { page_size := 512, num_pages := 2, cache := [], file_data := List.replicate 1024 7 }

/-- The cursor installed in c10_machine below. -/
def c10_cursor : Cursor :=
  { btree_key := 1
    writable := true
    data := [(5, [SqlValue.int 5])]
    position := 0
    valid := true }

/-- A concrete machine for the C10 witness: one writable cursor,
positioned on the single record of its snapshot. -/
def c10_machine : Machine :=
  { bt := (bt_new 512).1
    btrees := [(1, 1)]
    cursors := [(0, c10_cursor)]
    stack := []
    result_rows := []
    pc := 0
    halted := false }

end YesDb

namespace YesDb

/-! ### chidb/sql/lexer.py

Tokens carry no line/column here (the source tracks them only for
diagnostics).  The quote and backslash characters are written by code
point to keep the text plain. -/

def quote_char : Char := Char.ofNat 39

def backslash_char : Char := Char.ofNat 92

inductive TokType
  | SELECT | FROM | WHERE | INSERT | INTO | VALUES | CREATE | TABLE
  | INTEGER | TEXT | REAL | DELETE | UPDATE | SET | AND | OR | NOT | NULL
  | PRIMARY | KEY
  | INTEGER_LITERAL | STRING_LITERAL | FLOAT_LITERAL
  | IDENTIFIER
  | EQUALS | NOT_EQUALS | LESS_THAN | LESS_EQUAL | GREATER_THAN | GREATER_EQUAL
  | PLUS | MINUS | STAR | SLASH
  | LPAREN | RPAREN | COMMA | SEMICOLON | DOT
  | EOF | UNKNOWN
deriving DecidableEq, Repr

/-- Token values: None for EOF, int for integer literals, the raw digit
string for float literals (the IEEE parse plays no role in any claim),
str otherwise. -/
inductive TokVal
  | vnone : TokVal
  | vint (n : Nat) : TokVal
  | vfloat (raw : String) : TokVal
  | vstr (s : String) : TokVal
deriving DecidableEq, Repr

structure Tok where
  type : TokType
  value : TokVal
deriving DecidableEq, Repr

/-- The KEYWORDS table of the lexer, in source order. -/
def KEYWORDS : List (String × TokType) :=
  [("SELECT", .SELECT), ("FROM", .FROM), ("WHERE", .WHERE), ("INSERT", .INSERT),
   ("INTO", .INTO), ("VALUES", .VALUES), ("CREATE", .CREATE), ("TABLE", .TABLE),
   ("INTEGER", .INTEGER), ("TEXT", .TEXT), ("REAL", .REAL), ("DELETE", .DELETE),
   ("UPDATE", .UPDATE), ("SET", .SET), ("AND", .AND), ("OR", .OR), ("NOT", .NOT),
   ("NULL", .NULL), ("PRIMARY", .PRIMARY), ("KEY", .KEY)]

def keyword_lookup (s : String) : Option TokType :=
  (KEYWORDS.find? (fun p => p.1 == s)).map (fun p => p.2)

/-- int(num_str) on a digit string (on the character list, so that the
kernel can evaluate it). -/
def str_to_nat (s : List Char) : Nat :=
  s.foldl (fun n c => n * 10 + (c.toNat - 48)) 0

/-- The loop of Lexer.read_number: digits and dots, stopping before a
second dot.  Returns the collected text, the float flag and the rest. -/
def read_number_go : List Char → List Char → Bool → List Char × Bool × List Char
  | [], acc, is_float => (acc, is_float, [])
  | c :: rest, acc, is_float =>
    if c.isDigit ∨ c = '.' then
      if c = '.' ∧ is_float then (acc, is_float, c :: rest)
      else read_number_go rest (acc ++ [c]) (is_float ∨ c = '.')
    else (acc, is_float, c :: rest)

def read_number (cs : List Char) : Tok × List Char :=
  let (num_str, is_float, rest) := read_number_go cs [] false
  if is_float then (⟨.FLOAT_LITERAL, .vfloat (String.mk num_str)⟩, rest)
  else (⟨.INTEGER_LITERAL, .vint (str_to_nat num_str)⟩, rest)

/-- The loop of Lexer.read_string after the opening quote: collect until
the closing quote, treating backslash-quote as an escaped quote (fuel:
every iteration consumes at least one character). -/
def read_string_go : Nat → List Char → List Char → List Char × List Char
  | 0, cs, acc => (acc, cs)
  | _ + 1, [], acc => (acc, [])
  | fuel + 1, c :: rest, acc =>
    if c = quote_char then (acc, c :: rest)
    else if c = backslash_char then
      match rest with
      | c2 :: rest2 =>
        if c2 = quote_char then read_string_go fuel rest2 (acc ++ [quote_char])
        else read_string_go fuel rest (acc ++ [c])
      | [] => (acc ++ [c], [])
    else read_string_go fuel rest (acc ++ [c])

def read_string (cs : List Char) : Tok × List Char :=
  let (s, rest) := read_string_go (cs.length + 1) cs []
  let rest := match rest with
    | c :: rest2 => if c = quote_char then rest2 else c :: rest2
    | [] => []
  (⟨.STRING_LITERAL, .vstr (String.mk s)⟩, rest)

/-- The loop of Lexer.read_identifier: alphanumerics and underscores. -/
def read_identifier_go : List Char → List Char → List Char × List Char
  | [], acc => (acc, [])
  | c :: rest, acc =>
    if c.isAlphanum ∨ c = '_' then read_identifier_go rest (acc ++ [c])
    else (acc, c :: rest)

/-- Lexer.read_identifier: keywords are recognized case-insensitively
(upper-casing character by character, which agrees with str.upper on the
identifier alphabet), identifiers keep their original text. -/
def read_identifier (cs : List Char) : Tok × List Char :=
  let (identifier, rest) := read_identifier_go cs []
  match keyword_lookup (String.mk (identifier.map Char.toUpper)) with
  | some kw => (⟨kw, .vstr (String.mk identifier)⟩, rest)
  | none => (⟨.IDENTIFIER, .vstr (String.mk identifier)⟩, rest)

/-- Skip a double-dash comment to the end of the line (consuming the
newline). -/
def skip_comment (cs : List Char) : List Char :=
  match cs.dropWhile (fun c => c ≠ '\n') with
  | _ :: rest => rest
  | [] => []

/-- Lexer.get_next_token: skip whitespace and comments, then dispatch on
the first character.  An exclamation mark not followed by an equals sign
falls through every operator test and becomes UNKNOWN, as in the
source. -/
def get_next_token : Nat → List Char → Tok × List Char
  | 0, cs => (⟨.EOF, .vnone⟩, cs)
  | fuel + 1, [] => (⟨.EOF, .vnone⟩, [])
  | fuel + 1, c :: rest =>
    if c.isWhitespace then get_next_token fuel rest
    else if c = '-' ∧ rest.head? = some '-' then
      get_next_token fuel (skip_comment (c :: rest))
    else if c.isDigit then read_number (c :: rest)
    else if c = quote_char then read_string rest
    else if c.isAlpha ∨ c = '_' then read_identifier (c :: rest)
    else if c = '=' then (⟨.EQUALS, .vstr "="⟩, rest)
    else if c = '!' ∧ rest.head? = some '=' then (⟨.NOT_EQUALS, .vstr "!="⟩, rest.drop 1)
    else if c = '<' then
      if rest.head? = some '=' then (⟨.LESS_EQUAL, .vstr "<="⟩, rest.drop 1)
      else (⟨.LESS_THAN, .vstr "<"⟩, rest)
    else if c = '>' then
      if rest.head? = some '=' then (⟨.GREATER_EQUAL, .vstr ">="⟩, rest.drop 1)
      else (⟨.GREATER_THAN, .vstr ">"⟩, rest)
    else if c = '+' then (⟨.PLUS, .vstr "+"⟩, rest)
    else if c = '-' then (⟨.MINUS, .vstr "-"⟩, rest)
    else if c = '*' then (⟨.STAR, .vstr "*"⟩, rest)
    else if c = '/' then (⟨.SLASH, .vstr "/"⟩, rest)
    else if c = '(' then (⟨.LPAREN, .vstr "("⟩, rest)
    else if c = ')' then (⟨.RPAREN, .vstr ")"⟩, rest)
    else if c = ',' then (⟨.COMMA, .vstr ","⟩, rest)
    else if c = ';' then (⟨.SEMICOLON, .vstr ";"⟩, rest)
    else if c = '.' then (⟨.DOT, .vstr "."⟩, rest)
    else (⟨.UNKNOWN, .vstr (String.mk [c])⟩, rest)

/-- Lexer.tokenize: collect tokens until EOF (every non-EOF token
consumes at least one character, so the character count is sufficient
fuel). -/
def tokenize_go : Nat → List Char → List Tok
  | 0, _ => [⟨.EOF, .vnone⟩]
  | fuel + 1, cs =>
    let (t, rest) := get_next_token (cs.length + 1) cs
    if t.type = .EOF then [t] else t :: tokenize_go fuel rest

def tokenize (source : String) : List Tok :=
  tokenize_go (source.toList.length + 1) source.toList

/-! ### chidb/sql/parser.py -/

/-- Literal values as the parser holds them (Python int, str, float,
None; bool appears only through the optimizer). -/
inductive LitVal
  | vint (n : Nat) : LitVal
  | vstr (s : String) : LitVal
  | vfloat (raw : String) : LitVal
  | vbool (b : Bool) : LitVal
  | vnull : LitVal
deriving DecidableEq, Repr

inductive Expr
  | binop (left : Expr) (op : String) (right : Expr) : Expr
  | lit (value : LitVal) : Expr
  | ident (name : String) : Expr
deriving DecidableEq, Repr

structure ColumnDef where
  name : String
  type : String
  primary_key : Bool
deriving DecidableEq, Repr

inductive Ast
  | selectStmt (columns : List String) (table : String) (whereExpr : Option Expr) : Ast
  | insertStmt (table : String) (values : List LitVal) : Ast
  | createStmt (table : String) (columns : List ColumnDef) : Ast
  | updateStmt (table : String) (assignments : List (String × LitVal))
      (whereExpr : Option Expr) : Ast
  | deleteStmt (table : String) (whereExpr : Option Expr) : Ast
deriving DecidableEq, Repr

/-- Parser.expect: demand a token type, yield the token and the rest. -/
def p_expect (tt : TokType) : List Tok → Except String (Tok × List Tok)
  | t :: rest => if t.type = tt then .ok (t, rest) else .error "ParseError: expected token"
  | [] => .error "ParseError: expected token, got EOF"

/-- The head token type, when any tokens remain. -/
def p_head (ts : List Tok) : Option TokType := ts.head?.map (fun t => t.type)

/-- Parser.parse_literal_value: a literal as a plain value. -/
def parse_literal_value : List Tok → Except String (LitVal × List Tok)
  | t :: rest =>
    match t.type, t.value with
    | .INTEGER_LITERAL, .vint n => .ok (.vint n, rest)
    | .STRING_LITERAL, .vstr s => .ok (.vstr s, rest)
    | .FLOAT_LITERAL, .vfloat f => .ok (.vfloat f, rest)
    | .NULL, _ => .ok (.vnull, rest)
    | _, _ => .error "ParseError: expected literal value"
  | [] => .error "ParseError: expected literal value, got EOF"

/-- Parser.parse_literal: a literal as an expression. -/
def parse_literal (ts : List Tok) : Except String (Expr × List Tok) := do
  let (v, rest) ← parse_literal_value ts
  .ok (.lit v, rest)

mutual

/-- Parser.parse_or_expression (the star is fuelled; every iteration
consumes at least the OR token). -/
def parse_or_expression : Nat → List Tok → Except String (Expr × List Tok)
  | 0, _ => .error "ParseError: expression too deep"
  | fuel + 1, ts => do
    let (left, ts) ← parse_and_expression fuel ts
    parse_or_go fuel left ts

def parse_or_go : Nat → Expr → List Tok → Except String (Expr × List Tok)
  | 0, left, ts => .ok (left, ts)
  | fuel + 1, left, ts =>
    if p_head ts = some .OR then do
      let (right, ts) ← parse_and_expression fuel (ts.drop 1)
      parse_or_go fuel (.binop left "OR" right) ts
    else .ok (left, ts)

def parse_and_expression : Nat → List Tok → Except String (Expr × List Tok)
  | 0, _ => .error "ParseError: expression too deep"
  | fuel + 1, ts => do
    let (left, ts) ← parse_comparison fuel ts
    parse_and_go fuel left ts

def parse_and_go : Nat → Expr → List Tok → Except String (Expr × List Tok)
  | 0, left, ts => .ok (left, ts)
  | fuel + 1, left, ts =>
    if p_head ts = some .AND then do
      let (right, ts) ← parse_comparison fuel (ts.drop 1)
      parse_and_go fuel (.binop left "AND" right) ts
    else .ok (left, ts)

/-- Parser.parse_comparison: a primary, optionally followed by one
comparison operator and a second primary. -/
def parse_comparison : Nat → List Tok → Except String (Expr × List Tok)
  | 0, _ => .error "ParseError: expression too deep"
  | fuel + 1, ts => do
    let (left, ts) ← parse_primary fuel ts
    let op : Option String :=
      match p_head ts with
      | some .EQUALS => some "="
      | some .NOT_EQUALS => some "!="
      | some .LESS_THAN => some "<"
      | some .LESS_EQUAL => some "<="
      | some .GREATER_THAN => some ">"
      | some .GREATER_EQUAL => some ">="
      | _ => none
    match op with
    | none => .ok (left, ts)
    | some op => do
      let (right, ts) ← parse_primary fuel (ts.drop 1)
      .ok (.binop left op right, ts)

/-- Parser.parse_primary: identifier, literal, or a parenthesized
expression. -/
def parse_primary : Nat → List Tok → Except String (Expr × List Tok)
  | 0, _ => .error "ParseError: expression too deep"
  | fuel + 1, ts =>
    match ts with
    | t :: rest =>
      match t.type, t.value with
      | .IDENTIFIER, .vstr name => .ok (.ident name, rest)
      | .INTEGER_LITERAL, _ => parse_literal ts
      | .STRING_LITERAL, _ => parse_literal ts
      | .FLOAT_LITERAL, _ => parse_literal ts
      | .NULL, _ => parse_literal ts
      | .LPAREN, _ => do
        let (e, ts) ← parse_or_expression fuel rest
        let (_, ts) ← p_expect .RPAREN ts
        .ok (e, ts)
      | _, _ => .error "ParseError: unexpected token in expression"
    | [] => .error "ParseError: unexpected end in expression"

end

/-- Parser.parse_expression. -/
def parse_expression (ts : List Tok) : Except String (Expr × List Tok) :=
  parse_or_expression ts.length ts

/-- The column-list loop of Parser.parse_select. -/
def parse_select_columns_go : Nat → List String → List Tok →
    Except String (List String × List Tok)
  | 0, cols, ts => .ok (cols, ts)
  | fuel + 1, cols, ts =>
    if p_head ts = some .COMMA then do
      let (t, ts) ← p_expect .IDENTIFIER (ts.drop 1)
      match t.value with
      | .vstr name => parse_select_columns_go fuel (cols ++ [name]) ts
      | _ => .error "ParseError: bad identifier token"
    else .ok (cols, ts)

/-- Parser.parse_select. -/
def parse_select (ts : List Tok) : Except String (Ast × List Tok) := do
  let (_, ts) ← p_expect .SELECT ts
  let (columns, ts) ←
    if p_head ts = some .STAR then pure (["*"], ts.drop 1)
    else do
      let (t, ts) ← p_expect .IDENTIFIER ts
      match t.value with
      | .vstr name => parse_select_columns_go ts.length [name] ts
      | _ => .error "ParseError: bad identifier token"
  let (_, ts) ← p_expect .FROM ts
  let (t, ts) ← p_expect .IDENTIFIER ts
  match t.value with
  | .vstr table =>
    if p_head ts = some .WHERE then do
      let (w, ts) ← parse_expression (ts.drop 1)
      .ok (.selectStmt columns table (some w), ts)
    else .ok (.selectStmt columns table none, ts)
  | _ => .error "ParseError: bad identifier token"

/-- The value-list loop of Parser.parse_insert. -/
def parse_values_go : Nat → List LitVal → List Tok →
    Except String (List LitVal × List Tok)
  | 0, vals, ts => .ok (vals, ts)
  | fuel + 1, vals, ts =>
    if p_head ts = some .COMMA then do
      let (v, ts) ← parse_literal_value (ts.drop 1)
      parse_values_go fuel (vals ++ [v]) ts
    else .ok (vals, ts)

/-- Parser.parse_insert. -/
def parse_insert (ts : List Tok) : Except String (Ast × List Tok) := do
  let (_, ts) ← p_expect .INSERT ts
  let (_, ts) ← p_expect .INTO ts
  let (t, ts) ← p_expect .IDENTIFIER ts
  match t.value with
  | .vstr table => do
    let (_, ts) ← p_expect .VALUES ts
    let (_, ts) ← p_expect .LPAREN ts
    let (v, ts) ← parse_literal_value ts
    let (vals, ts) ← parse_values_go ts.length [v] ts
    let (_, ts) ← p_expect .RPAREN ts
    .ok (.insertStmt table vals, ts)
  | _ => .error "ParseError: bad identifier token"

/-- Parser.parse_column_def. -/
def parse_column_def (ts : List Tok) : Except String (ColumnDef × List Tok) := do
  let (t, ts) ← p_expect .IDENTIFIER ts
  match t.value with
  | .vstr name =>
    let (col_type, ts) ←
      match p_head ts with
      | some .INTEGER => pure ("INTEGER", ts.drop 1)
      | some .TEXT => pure ("TEXT", ts.drop 1)
      | some .REAL => pure ("REAL", ts.drop 1)
      | _ => .error "ParseError: expected type"
    if p_head ts = some .PRIMARY then do
      let (_, ts) ← p_expect .KEY (ts.drop 1)
      .ok (⟨name, col_type, true⟩, ts)
    else .ok (⟨name, col_type, false⟩, ts)
  | _ => .error "ParseError: bad identifier token"

/-- The column-definition loop of Parser.parse_create_table. -/
def parse_coldefs_go : Nat → List ColumnDef → List Tok →
    Except String (List ColumnDef × List Tok)
  | 0, cols, ts => .ok (cols, ts)
  | fuel + 1, cols, ts =>
    if p_head ts = some .COMMA then do
      let (c, ts) ← parse_column_def (ts.drop 1)
      parse_coldefs_go fuel (cols ++ [c]) ts
    else .ok (cols, ts)

/-- Parser.parse_create_table. -/
def parse_create_table (ts : List Tok) : Except String (Ast × List Tok) := do
  let (_, ts) ← p_expect .CREATE ts
  let (_, ts) ← p_expect .TABLE ts
  let (t, ts) ← p_expect .IDENTIFIER ts
  match t.value with
  | .vstr table => do
    let (_, ts) ← p_expect .LPAREN ts
    let (c, ts) ← parse_column_def ts
    let (cols, ts) ← parse_coldefs_go ts.length [c] ts
    let (_, ts) ← p_expect .RPAREN ts
    .ok (.createStmt table cols, ts)
  | _ => .error "ParseError: bad identifier token"

/-- The assignment loop of Parser.parse_update. -/
def parse_assignments_go : Nat → List (String × LitVal) → List Tok →
    Except String (List (String × LitVal) × List Tok)
  | 0, asgn, ts => .ok (asgn, ts)
  | fuel + 1, asgn, ts =>
    if p_head ts = some .COMMA then do
      let (t, ts) ← p_expect .IDENTIFIER (ts.drop 1)
      match t.value with
      | .vstr col => do
        let (_, ts) ← p_expect .EQUALS ts
        let (v, ts) ← parse_literal_value ts
        parse_assignments_go fuel (asgn ++ [(col, v)]) ts
      | _ => .error "ParseError: bad identifier token"
    else .ok (asgn, ts)

/-- Parser.parse_update. -/
def parse_update (ts : List Tok) : Except String (Ast × List Tok) := do
  let (_, ts) ← p_expect .UPDATE ts
  let (t, ts) ← p_expect .IDENTIFIER ts
  match t.value with
  | .vstr table => do
    let (_, ts) ← p_expect .SET ts
    let (t2, ts) ← p_expect .IDENTIFIER ts
    match t2.value with
    | .vstr col => do
      let (_, ts) ← p_expect .EQUALS ts
      let (v, ts) ← parse_literal_value ts
      let (asgn, ts) ← parse_assignments_go ts.length [(col, v)] ts
      if p_head ts = some .WHERE then do
        let (w, ts) ← parse_expression (ts.drop 1)
        .ok (.updateStmt table asgn (some w), ts)
      else .ok (.updateStmt table asgn none, ts)
    | _ => .error "ParseError: bad identifier token"
  | _ => .error "ParseError: bad identifier token"

/-- Parser.parse_delete. -/
def parse_delete (ts : List Tok) : Except String (Ast × List Tok) := do
  let (_, ts) ← p_expect .DELETE ts
  let (_, ts) ← p_expect .FROM ts
  let (t, ts) ← p_expect .IDENTIFIER ts
  match t.value with
  | .vstr table =>
    if p_head ts = some .WHERE then do
      let (w, ts) ← parse_expression (ts.drop 1)
      .ok (.deleteStmt table (some w), ts)
    else .ok (.deleteStmt table none, ts)
  | _ => .error "ParseError: bad identifier token"

/-- Parser.parse: dispatch on the first token; anything else (including
an identifier such as DROP or ALTER, which the lexer does not know) is a
ParseError. -/
def parse_statement (ts : List Tok) : Except String Ast := do
  let (ast, _) ←
    match p_head ts with
    | some .SELECT => parse_select ts
    | some .INSERT => parse_insert ts
    | some .CREATE => parse_create_table ts
    | some .UPDATE => parse_update ts
    | some .DELETE => parse_delete ts
    | _ => .error "ParseError: unexpected token"
  .ok ast

end YesDb

namespace YesDb

/-! ### chidb/sql/optimizer.py -/

/-- Python truthiness of a literal value.  A float literal is falsy
exactly when its digits are all zero, which is accurate for the dotted
digit strings this lexer produces. -/
def py_truthy_lit : LitVal → Bool
  | .vint n => n != 0
  | .vstr s => s != ""
  | .vbool b => b
  | .vnull => false
  | .vfloat raw => raw.data.any (fun c => c.isDigit && c != '0')

/-- Python equality between literal values: booleans equal their integer
value, other types compare structurally and mixed types are unequal.
(Numeric equality across int and float literals is not modelled; no
claim folds such a comparison.) -/
def py_eq_lit : LitVal → LitVal → Bool
  | .vint a, .vint b => a == b
  | .vbool a, .vint b => (if a then 1 else 0) == b
  | .vint a, .vbool b => a == (if b then 1 else 0)
  | .vbool a, .vbool b => a == b
  | .vstr a, .vstr b => a == b
  | .vnull, .vnull => true
  | .vfloat a, .vfloat b => a == b
  | _, _ => false

/-- Python strict order on literal values where the claims need it;
none models a TypeError (caught by fold_constants, which then leaves the
expression unchanged).  Float ordering is left unfolded. -/
def py_lt_lit : LitVal → LitVal → Option Bool
  | .vint a, .vint b => some (a < b)
  | .vbool a, .vint b => some ((if a then 1 else 0) < b)
  | .vint a, .vbool b => some (a < (if b then 1 else 0))
  | .vbool a, .vbool b => some ((if a then (1 : Nat) else 0) < (if b then 1 else 0))
  | .vstr a, .vstr b => some (a < b)
  | _, _ => none

/-- Optimizer.expressions_equal. -/
def expressions_equal : Expr → Expr → Bool
  | .lit a, .lit b => py_eq_lit a b
  | .ident a, .ident b => a == b
  | .binop l1 o1 r1, .binop l2 o2 r2 =>
    o1 == o2 && expressions_equal l1 l2 && expressions_equal r1 r2
  | _, _ => false

/-- Optimizer.fold_constants on two literal operands: comparisons fold
to their Boolean, AND and OR fold to the Python operand value, a
TypeError (or an operator the optimizer does not know) leaves the
original expression. -/
def fold_constants (left : LitVal) (op : String) (right : LitVal) : Expr :=
  if op == "=" then .lit (.vbool (py_eq_lit left right))
  else if op == "!=" then .lit (.vbool (!py_eq_lit left right))
  else if op == "<" then
    match py_lt_lit left right with
    | some b => .lit (.vbool b)
    | none => .binop (.lit left) op (.lit right)
  else if op == "<=" then
    match py_lt_lit right left with
    | some b => .lit (.vbool (!b))
    | none => .binop (.lit left) op (.lit right)
  else if op == ">" then
    match py_lt_lit right left with
    | some b => .lit (.vbool b)
    | none => .binop (.lit left) op (.lit right)
  else if op == ">=" then
    match py_lt_lit left right with
    | some b => .lit (.vbool (!b))
    | none => .binop (.lit left) op (.lit right)
  else if op == "AND" then .lit (if py_truthy_lit left then right else left)
  else if op == "OR" then .lit (if py_truthy_lit left then left else right)
  else .binop (.lit left) op (.lit right)

/-- Optimizer.optimize_expression: recurse into both sides, fold when
both are literals, else simplify x = x and x != x. -/
def optimize_expression : Expr → Expr
  | .binop l op r =>
    let l2 := optimize_expression l
    let r2 := optimize_expression r
    match l2, r2 with
    | .lit a, .lit b => fold_constants a op b
    | _, _ =>
      if op == "=" && expressions_equal l2 r2 then .lit (.vbool true)
      else if op == "!=" && expressions_equal l2 r2 then .lit (.vbool false)
      else .binop l2 op r2
  | e => e

/-- Optimizer.optimize: SELECT statements get their WHERE clause
optimized; everything else passes through. -/
def optimize : Ast → Ast
  | .selectStmt cols table (some w) => .selectStmt cols table (some (optimize_expression w))
  | ast => ast

/-! ### chidb/api.py : table metadata (the part code generation uses) -/

/-- api.TableMetadata. -/
structure TableMetadata where
  name : String
  root_page : Nat
  columns : List ColumnDef
  primary_key_column : Option String
  next_auto_increment : Nat
deriving DecidableEq, Repr

/-! ### chidb/sql/codegen.py -/

/-- The CodeGenerator state: the table registry, the table metadata map
(shared with the controller; generate_insert mutates the metadata
counter) and the per-generator auto key. -/
structure CodeGenState where
  table_registry : List (String × Nat)
  table_metadata : List (String × TableMetadata)
  next_auto_key : Nat
deriving DecidableEq, Repr

/-- CodeGenerator.get_table_root. -/
def get_table_root (cg : CodeGenState) (table : String) : Except String Nat :=
  match cg.table_registry.find? (fun p => p.1 == table) with
  | some p => .ok p.2
  | none => .error "Unknown table"

def metadata_get (cg : CodeGenState) (table : String) : Option TableMetadata :=
  (cg.table_metadata.find? (fun p => p.1 == table)).map (fun p => p.2)

/-- The comparison opcode for an operator string. -/
def cmp_opcode (op : String) : Except String Opcode :=
  if op == "=" then .ok .EQ
  else if op == "!=" then .ok .NE
  else if op == "<" then .ok .LT
  else if op == "<=" then .ok .LE
  else if op == ">" then .ok .GT
  else if op == ">=" then .ok .GE
  else .error "Unsupported operator"

/-- CodeGenerator.generate_expression: literals push themselves (a float
literal raises), identifiers push the placeholder integer 0, binary
operations push both sides then compare. -/
def generate_expression : Expr → Except String (List Instruction)
  | .lit v =>
    match v with
    | .vnull => .ok [{ opcode := .NULL }]
    | .vbool b => .ok [{ opcode := .INTEGER, p1 := if b then 1 else 0 }]
    | .vint n => .ok [{ opcode := .INTEGER, p1 := (n : Int) }]
    | .vstr s => .ok [{ opcode := .STRING, p4 := some s }]
    | .vfloat _ => .error "Unsupported literal type"
  | .ident _ => .ok [{ opcode := .INTEGER, p1 := 0 }]
  | .binop l op r => do
    let li ← generate_expression l
    let ri ← generate_expression r
    let cmp ← cmp_opcode op
    .ok (li ++ ri ++ [{ opcode := cmp }])

/-- CodeGenerator.generate_where_filter: a binary operation or a
literal; anything else (an identifier at top level) raises. -/
def generate_where_filter : Expr → Except String (List Instruction)
  | .binop l op r => do
    let li ← generate_expression l
    let ri ← generate_expression r
    let cmp ← cmp_opcode op
    .ok (li ++ ri ++ [{ opcode := cmp }])
  | .lit v => generate_expression (.lit v)
  | _ => .error "Unsupported WHERE expression"

/-- CodeGenerator.generate_select.  The source computes a skip_row_jump
index when a WHERE clause is present but never emits the corresponding
JUMP_IF_FALSE; the WHERE instructions are followed directly by
RESULT_ROW.  The REWIND placeholder at index 1 is patched to the CLOSE
index afterwards, and NEXT jumps back to the loop start at index 2. -/
def generate_select (cg : CodeGenState) (table : String)
    (whereExpr : Option Expr) : Except String (List Instruction) := do
  let root_page ← get_table_root cg table
  let where_instructions ←
    match whereExpr with
    | some e => generate_where_filter e
    | none => pure []
  let instructions :=
    [{ opcode := .OPEN_READ, p1 := 0, p2 := (root_page : Int) },
     { opcode := .REWIND, p1 := 0, p2 := 0 },
     { opcode := .DATA, p1 := 0 }] ++ where_instructions ++
    [{ opcode := .RESULT_ROW, p1 := 1 },
     { opcode := .NEXT, p1 := 0, p2 := 2 },
     { opcode := .CLOSE, p1 := 0 },
     { opcode := .HALT }]
  let close_idx : Nat := instructions.length - 2
  .ok (instructions.set 1 { opcode := .REWIND, p1 := 0, p2 := (close_idx : Int) })

/-- int() truncation of a float literal, as pushed by generate_insert
for float values (accurate for the dotted digit strings the lexer
produces). -/
def float_trunc (raw : String) : Nat :=
  str_to_nat (raw.data.takeWhile (fun c => c != '.'))

/-- The per-value push instruction of generate_insert (booleans are
Python ints; floats are truncated to integers as in the source). -/
def push_value_instruction : LitVal → Instruction
  | .vnull => { opcode := .NULL }
  | .vbool b => { opcode := .INTEGER, p1 := if b then 1 else 0 }
  | .vint n => { opcode := .INTEGER, p1 := (n : Int) }
  | .vstr s => { opcode := .STRING, p4 := some s }
  | .vfloat raw => { opcode := .INTEGER, p1 := (float_trunc raw : Int) }

/-- CodeGenerator.generate_insert: choose the key (the user value when
the primary-key column holds a non-NULL value; else the metadata
auto-increment counter, which is then bumped and substituted into the
value list; without a primary key, the per-generator auto key), then
emit OPEN_WRITE, the key, the value pushes, MAKE_RECORD, INSERT, CLOSE,
HALT.  A non-integer user-supplied key is not modelled. -/
def generate_insert (cg : CodeGenState) (table : String) (values : List LitVal) :
    Except String (List Instruction × CodeGenState) := do
  let root_page ← get_table_root cg table
  let (key, values2, cg2) ←
    (match metadata_get cg table with
    | some tm =>
      match tm.primary_key_column with
      | some pk =>
        if pk == "" then
          -- an empty primary-key name is falsy in the source condition
          .ok ((cg.next_auto_key : Int), values,
            { cg with next_auto_key := cg.next_auto_key + 1 })
        else
          match tm.columns.findIdx? (fun col => col.name == pk) with
          | some i =>
            if i < values.length ∧ values.getD i .vnull ≠ .vnull then
              match values.getD i .vnull with
              | .vint k => .ok ((k : Int), values, cg)
              | .vbool b => .ok ((if b then 1 else 0 : Int), values, cg)
              | _ => .error "non-integer key not modelled"
            else
              let key := tm.next_auto_increment
              let tm2 := { tm with next_auto_increment := tm.next_auto_increment + 1 }
              let cg2 := { cg with
                table_metadata := assoc_write cg.table_metadata table tm2 }
              let values2 :=
                if i = 0 then .vint key :: values.drop 1
                else if i < values.length then values.set i (.vint key)
                else values
              .ok ((key : Int), values2, cg2)
          | none =>
            let key := tm.next_auto_increment
            let tm2 := { tm with next_auto_increment := tm.next_auto_increment + 1 }
            let cg2 := { cg with
              table_metadata := assoc_write cg.table_metadata table tm2 }
            .ok ((key : Int), values, cg2)
      | none =>
        .ok ((cg.next_auto_key : Int), values,
          { cg with next_auto_key := cg.next_auto_key + 1 })
    | none =>
      .ok ((cg.next_auto_key : Int), values,
        { cg with next_auto_key := cg.next_auto_key + 1 })
      : Except String (Int × List LitVal × CodeGenState))
  let instructions :=
    [{ opcode := .OPEN_WRITE, p1 := 0, p2 := (root_page : Int) },
     { opcode := .INTEGER, p1 := key }] ++
    values2.map push_value_instruction ++
    [{ opcode := .MAKE_RECORD, p1 := (values2.length : Int) },
     { opcode := .INSERT, p1 := 0 },
     { opcode := .CLOSE, p1 := 0 },
     { opcode := .HALT }]
  .ok (instructions, cg2)

/-- CodeGenerator.generate: the dispatch.  CREATE TABLE emits only HALT
(the controller does the work); UPDATE emits the no-op skeleton of the
source (open, rewind to close, key, data, close, halt); DELETE emits
open, close, halt. -/
def generate (cg : CodeGenState) : Ast → Except String (List Instruction × CodeGenState)
  | .selectStmt _ table w => do
    let i ← generate_select cg table w
    .ok (i, cg)
  | .insertStmt table values => generate_insert cg table values
  | .createStmt _ _ => .ok ([{ opcode := .HALT }], cg)
  | .updateStmt table _ _ => do
    let root ← get_table_root cg table
    match metadata_get cg table with
    | none => .error "No metadata for table"
    | some _ =>
      .ok ([{ opcode := .OPEN_WRITE, p1 := 0, p2 := (root : Int) },
            { opcode := .REWIND, p1 := 0, p2 := 4 },
            { opcode := .KEY, p1 := 0 },
            { opcode := .DATA, p1 := 0 },
            { opcode := .CLOSE, p1 := 0 },
            { opcode := .HALT }], cg)
  | .deleteStmt table _ => do
    let root ← get_table_root cg table
    .ok ([{ opcode := .OPEN_WRITE, p1 := 0, p2 := (root : Int) },
          { opcode := .CLOSE, p1 := 0 },
          { opcode := .HALT }], cg)

/-! ### Concrete data for the C4 evaluation -/

def c4_sql : String := "SELECT * FROM t WHERE 5 = 5"

/-- A generator state knowing table t rooted at page 1. -/
def c4_codegen : CodeGenState :=
  { table_registry := [("t", 1)], table_metadata := [], next_auto_key := 1 }

/-- A tree for table t with two one-column rows. -/
def c4_table_state : BTState × Nat :=
  let (st, root) := bt_new 512
  let (st, root) := btree_insert st root 1 [.int 1]
  btree_insert st root 2 [.int 2]

/-- The full front-end pipeline of YesDB.execute for a plain SELECT:
lex, parse, optimize, generate. -/
def c4_pipeline : Except String (List Instruction) :=
  match parse_statement (tokenize c4_sql) with
  | .ok ast => (generate c4_codegen (optimize ast)).map (fun p => p.1)
  | .error e => .error e

/-- Metadata for the C7 witness: table t with an INTEGER PRIMARY KEY
column first. -/
def c7_metadata : TableMetadata :=
  { name := "t"
    root_page := 2
    columns := [⟨"id", "INTEGER", true⟩, ⟨"v", "INTEGER", false⟩]
    primary_key_column := some "id"
    next_auto_increment := 1 }

/-- A generator state for the C7 witness. -/
def c7_codegen : CodeGenState :=
  { table_registry := [("t", 2)]
    table_metadata := [("t", c7_metadata)]
    next_auto_key := 1 }

/-- The program the source generator emits for c4_sql. -/
def c4_program : List Instruction :=
  [{ opcode := .OPEN_READ, p1 := 0, p2 := 1 },
   { opcode := .REWIND, p1 := 0, p2 := 6 },
   { opcode := .DATA, p1 := 0 },
   { opcode := .INTEGER, p1 := 1 },
   { opcode := .RESULT_ROW, p1 := 1 },
   { opcode := .NEXT, p1 := 0, p2 := 2 },
   { opcode := .CLOSE, p1 := 0 },
   { opcode := .HALT }]

end YesDb

namespace YesDb

/-! ### chidb/api.py : the controller (catalog persistence)

Catalog entries are single-column TEXT records holding
json.dumps(TableMetadata.to_dict()).  dumps_meta reproduces the exact
Python output for these dictionaries (insertion-order keys, the default
separators, true/false/null); the names stored never need JSON string
escaping.  loads_meta parses that shape back (the composition of
json.loads and TableMetadata.from_dict on such strings). -/

def dumps_column (c : ColumnDef) : String :=
  "\x7b\"name\": \"" ++ c.name ++ "\", \"type\": \"" ++ c.type ++
    "\", \"primary_key\": " ++ (if c.primary_key then "true" else "false") ++ "\x7d"

def dumps_columns (cols : List ColumnDef) : String :=
  "[" ++ String.intercalate ", " (cols.map dumps_column) ++ "]"

def dumps_meta (m : TableMetadata) : String :=
  "\x7b\"name\": \"" ++ m.name ++ "\", \"root_page\": " ++ toString m.root_page ++
    ", \"columns\": " ++ dumps_columns m.columns ++
    ", \"primary_key_column\": " ++
    (match m.primary_key_column with
     | some p => "\"" ++ p ++ "\""
     | none => "null") ++
    ", \"next_auto_increment\": " ++ toString m.next_auto_increment ++ "\x7d"

/-- Match a literal prefix. -/
def json_expect (lit : List Char) (cs : List Char) : Option (List Char) :=
  if cs.take lit.length = lit then some (cs.drop lit.length) else none

def json_quote : Char := Char.ofNat 34

/-- Read a (escape-free) JSON string body up to the closing quote. -/
def json_read_string (cs : List Char) : Option (String × List Char) :=
  let body := cs.takeWhile (fun c => c ≠ json_quote)
  match cs.drop body.length with
  | c :: rest => if c = json_quote then some (String.mk body, rest) else none
  | [] => none

def json_read_nat (cs : List Char) : Option (Nat × List Char) :=
  let digits := cs.takeWhile Char.isDigit
  if digits.length = 0 then none
  else some (str_to_nat digits, cs.drop digits.length)

def loads_column (cs : List Char) : Option (ColumnDef × List Char) := do
  let cs ← json_expect ("\x7b\"name\": \"".data) cs
  let (name, cs) ← json_read_string cs
  let cs ← json_expect (", \"type\": \"".data) cs
  let (type0, cs) ← json_read_string cs
  let cs ← json_expect (", \"primary_key\": ".data) cs
  match json_expect ("true\x7d".data) cs with
  | some cs => some (⟨name, type0, true⟩, cs)
  | none => do
    let cs ← json_expect ("false\x7d".data) cs
    some (⟨name, type0, false⟩, cs)

def loads_columns_go : Nat → List Char → List ColumnDef →
    Option (List ColumnDef × List Char)
  | 0, _, _ => none
  | fuel + 1, cs, acc => do
    let (c, cs) ← loads_column cs
    match json_expect (", ".data) cs with
    | some cs2 => loads_columns_go fuel cs2 (acc ++ [c])
    | none => do
      let cs ← json_expect ("]".data) cs
      some (acc ++ [c], cs)

def loads_columns (cs : List Char) : Option (List ColumnDef × List Char) := do
  let cs ← json_expect ("[".data) cs
  loads_columns_go (cs.length + 1) cs []

def loads_meta (cs : List Char) : Option TableMetadata := do
  let cs ← json_expect ("\x7b\"name\": \"".data) cs
  let (name, cs) ← json_read_string cs
  let cs ← json_expect (", \"root_page\": ".data) cs
  let (root_page, cs) ← json_read_nat cs
  let cs ← json_expect (", \"columns\": ".data) cs
  let (columns, cs) ← loads_columns cs
  let cs ← json_expect (", \"primary_key_column\": ".data) cs
  let (primary_key_column, cs) ←
    match json_expect ("null".data) cs with
    | some cs2 => some ((none : Option String), cs2)
    | none => do
      let cs2 ← json_expect ("\"".data) cs
      let (p, cs3) ← json_read_string cs2
      some (some p, cs3)
  let cs ← json_expect (", \"next_auto_increment\": ".data) cs
  let (next_auto_increment, cs) ← json_read_nat cs
  let _ ← json_expect ("\x7d".data) cs
  some ⟨name, root_page, columns, primary_key_column, next_auto_increment⟩

/-- The controller state: the shared pager pages, the catalog BTree
object (its current root_page field), and the two in-memory maps. -/
structure ApiState where
  bt : BTState
  catalog_root : Nat
  table_metadata : List (String × TableMetadata)
  tables : List (String × Nat)
deriving DecidableEq, Repr

/-- YesDB.__init__ on a fresh file: the pager writes the header page,
then _create_system_catalog allocates the catalog root leaf, which
lands at page 1. -/
def yesdb_new : ApiState :=
  let (st, croot) := bt_new 4096
  { bt := st, catalog_root := croot, table_metadata := [], tables := [] }

/-- YesDB._save_table_to_catalog: serialize to JSON, wrap in a
one-column record, insert at key = len(table_metadata) (the table is
already registered when this is called). -/
def save_table_to_catalog (s : ApiState) (meta : TableMetadata) : ApiState :=
  let json_data := dumps_meta meta
  let record := [SqlValue.text (json_data.data.map Char.toNat)]
  let key := s.table_metadata.length
  let (st, newroot) := btree_insert s.bt s.catalog_root key record
  { s with bt := st, catalog_root := newroot }

/-- YesDB._execute_create_table. -/
def execute_create_table (s : ApiState) (table : String) (cols : List ColumnDef) :
    Except String ApiState :=
  if (s.tables.find? (fun p => p.1 == table)).isSome then
    .error "Table already exists"
  else
    let (st, root) := create_leaf_node s.bt
    let primary_key := (cols.find? (fun c => c.primary_key)).map (fun c => c.name)
    let meta : TableMetadata :=
      { name := table, root_page := root, columns := cols,
        primary_key_column := primary_key, next_auto_increment := 1 }
    let s := { s with
      bt := st
      table_metadata := assoc_write s.table_metadata table meta
      tables := assoc_write s.tables table root }
    .ok (save_table_to_catalog s meta)

/-- YesDB._save_all_metadata: scan the catalog, delete every scanned
key, then re-insert every registered metadata entry at keys 1, 2, ... -/
def save_all_metadata (s : ApiState) : ApiState :=
  match btree_scan s.bt s.catalog_root with
  | .error _ => s
  | .ok records =>
    let s := records.foldl
      (fun (s : ApiState) r =>
        let (st, _) := btree_delete s.bt s.catalog_root r.1
        { s with bt := st }) s
    (s.table_metadata.foldl
      (fun (p : ApiState × Nat) entry =>
        let (s, i) := p
        let json_data := dumps_meta entry.2
        let record := [SqlValue.text (json_data.data.map Char.toNat)]
        let (st, newroot) := btree_insert s.bt s.catalog_root (i + 1) record
        ({ s with bt := st, catalog_root := newroot }, i + 1))
      (s, 0)).1

/-- YesDB.close: rewrite all metadata, then flush and close the pager
(durability itself is not modelled; the page store survives as data). -/
def yesdb_close (s : ApiState) : ApiState :=
  save_all_metadata s

/-- The record-processing loop of YesDB._load_system_catalog: falsy
payloads are skipped; a record whose payload fails to parse raises
inside the try block, which the source catches, keeping whatever was
already loaded. -/
def load_catalog_loop :
    List (Nat × List SqlValue) →
    List (String × TableMetadata) × List (String × Nat) →
    List (String × TableMetadata) × List (String × Nat)
  | [], acc => acc
  | (_, rec0) :: rest, (metas, tabs) =>
    match rec0 with
    | [.text []] => load_catalog_loop rest (metas, tabs)
    | [.null] => load_catalog_loop rest (metas, tabs)
    | [.text bytes] =>
      match loads_meta (bytes.map Char.ofNat) with
      | some m =>
        load_catalog_loop rest
          (assoc_write metas m.name m, assoc_write tabs m.name m.root_page)
      | none => (metas, tabs)
    | _ => (metas, tabs)

/-- YesDB._load_system_catalog: the catalog root is assumed to be page
1 (SYSTEM_CATALOG_PAGE), whatever the tree root had become; scan it and
rebuild the maps. -/
def load_system_catalog (st : BTState) :
    List (String × TableMetadata) × List (String × Nat) :=
  match btree_scan st 1 with
  | .error _ => ([], [])
  | .ok records => load_catalog_loop records ([], [])

/-- YesDB.__init__ on the existing file: page-count exceeds 1, so the
catalog is loaded from page 1. -/
def yesdb_reopen (s : ApiState) : ApiState :=
  let (metas, tabs) := load_system_catalog s.bt
  { bt := s.bt, catalog_root := 1, table_metadata := metas, tables := tabs }

/-- Create a list of one-column tables in order. -/
def create_tables : ApiState → List String → Except String ApiState
  | s, [] => .ok s
  | s, n :: rest => do
    let s2 ← execute_create_table s n [⟨"id", "INTEGER", true⟩]
    create_tables s2 rest

/-- Nineteen table names: enough creates to overflow the catalog root
leaf (4096-byte pages) and split it. -/
def c6_names : List String :=
  ["t01", "t02", "t03", "t04", "t05", "t06", "t07", "t08", "t09", "t10",
   "t11", "t12", "t13", "t14", "t15", "t16", "t17", "t18", "t19"]

def c6_session : Except String ApiState := create_tables yesdb_new c6_names

/-- The table names that survive close + reopen in the C6 scenario. -/
def c6_loaded_names : List String :=
  ["t01", "t02", "t03", "t04", "t05", "t06", "t07", "t08", "t09", "t10"]

end YesDb

namespace YesDb

/-! ### Proofs about the varint codec -/

theorem pack_varint_go_congr :
    ∀ (fuel1 fuel2 value : Nat), value ≤ fuel1 → value ≤ fuel2 →
      pack_varint_go fuel1 value = pack_varint_go fuel2 value := by
  intro fuel1
  induction fuel1 with
  | zero =>
    intro fuel2 value h1 _
    interval_cases value
    cases fuel2 <;> simp [pack_varint_go]
  | succ f ih =>
    intro fuel2 value h1 h2
    cases fuel2 with
    | zero =>
      interval_cases value
      simp [pack_varint_go]
    | succ g =>
      simp only [pack_varint_go]
      by_cases hv : value < 128
      · simp [hv]
      · simp only [hv, if_false]
        congr 1
        exact ih g (value / 128)
          (by have := Nat.div_le_self value 128; omega)
          (by have := Nat.div_le_self value 128; omega)

theorem pack_varint_eq (n : Nat) :
    pack_varint n = if n < 128 then [n]
      else (n % 128 + 128) :: pack_varint (n / 128) := by
  unfold pack_varint
  by_cases h : n < 128
  · cases n with
    | zero => simp [pack_varint_go, h]
    | succ m => simp [pack_varint_go, h]
  · cases n with
    | zero => omega
    | succ m =>
      simp only [pack_varint_go, h, if_false]
      congr 1
      exact pack_varint_go_congr m ((m + 1) / 128) ((m + 1) / 128)
        (by have h2 : (m + 1) / 128 < m + 1 := Nat.div_lt_self (by omega) (by omega)
            omega)
        (le_refl _)

theorem pack_varint_small {n : Nat} (h : n < 128) : pack_varint n = [n] := by
  rw [pack_varint_eq]; simp [h]

theorem pack_varint_large {n : Nat} (h : ¬ n < 128) :
    pack_varint n = (n % 128 + 128) :: pack_varint (n / 128) := by
  rw [pack_varint_eq]; simp [h]

theorem pack_varint_bytes_lt {n : Nat} : ∀ b ∈ pack_varint n, b < 256 := by
  induction n using Nat.strong_induction_on with
  | _ n ih =>
    by_cases h : n < 128
    · rw [pack_varint_small h]
      intro b hb
      simp only [List.mem_singleton] at hb
      omega
    · rw [pack_varint_large h]
      intro b hb
      rcases List.mem_cons.mp hb with h1 | h2
      · have hlt : n % 128 < 128 := Nat.mod_lt n (by omega)
        omega
      · exact ih (n / 128) (Nat.div_lt_self (by omega) (by omega)) b h2

theorem varint_loop_pack (n : Nat) :
    ∀ (rest : List Nat) (value shift pos : Nat),
    varint_loop (pack_varint n ++ rest) value shift pos =
      some (value + n * 2 ^ shift, pos + (pack_varint n).length) := by
  induction n using Nat.strong_induction_on with
  | _ n ih =>
    intro rest value shift pos
    by_cases h : n < 128
    · rw [pack_varint_small h]
      simp only [List.cons_append, List.nil_append, varint_loop]
      have hm : n % 128 = n := Nat.mod_eq_of_lt h
      have hm2 : n % 256 = n := Nat.mod_eq_of_lt (by omega)
      simp [hm, hm2, h, List.length_singleton]
    · rw [pack_varint_large h]
      simp only [List.cons_append, varint_loop, List.length_cons]
      have hb : ¬ (n % 128 + 128) % 256 < 128 := by omega
      simp only [hb, if_false, List.append_eq]
      rw [ih (n / 128) (Nat.div_lt_self (by omega) (by omega))]
      have hsplit : n % 128 + n / 128 * 128 = n := by
        have := Nat.mod_add_div n 128; omega
      have hpow : (2 : Nat) ^ (shift + 7) = 2 ^ shift * 128 := by
        rw [pow_add]; norm_num
      have hmm : (n % 128 + 128) % 128 = n % 128 := by omega
      rw [hmm, hpow]
      have hlen : pos + 1 + (pack_varint (n / 128)).length =
          pos + ((pack_varint (n / 128)).length + 1) := by omega
      have harith : value + n % 128 * 2 ^ shift + n / 128 * (2 ^ shift * 128) =
          value + n * 2 ^ shift := by
        conv_rhs => rw [← hsplit]
        ring
      rw [hlen, harith]

/-- Claim C8: for every n with 0 ≤ n < 2^63, unpacking the packed varint
returns the value together with the encoded length. -/
theorem c8_varint_roundtrip (n : Nat) (h : n < 2 ^ 63) :
    unpack_varint (pack_varint n) 0 = some (n, (pack_varint n).length) := by
  unfold unpack_varint
  rw [List.drop_zero, ← List.append_nil (pack_varint n), varint_loop_pack]
  simp

/-- Witness for C8 at n = 300. -/
theorem c8_varint_roundtrip_witness :
    (300 : Nat) < 2 ^ 63 ∧
      unpack_varint (pack_varint 300) 0 = some (300, (pack_varint 300).length) :=
  ⟨by norm_num, c8_varint_roundtrip 300 (by norm_num)⟩

end YesDb


namespace YesDb

/-! ### Proofs about the record codec -/

theorem unpack_varint_at (pre rest : List Nat) (n : Nat) :
    unpack_varint (pre ++ (pack_varint n ++ rest)) pre.length =
      some (n, (pack_varint n).length) := by
  unfold unpack_varint
  rw [List.drop_left, varint_loop_pack]
  simp

theorem decode_value_at (v : SqlValue) (hv : GoodValue v) (pre rest : List Nat) :
    Record.decode_value (pre ++ (encode_value v ++ rest)) pre.length (get_type_code v) =
      some (v, (encode_value v).length) := by
  cases v with
  | null => simp [Record.decode_value, get_type_code, encode_value]
  | int i =>
    have hnn : ¬ i < 0 := by
      simp only [GoodValue] at hv; omega
    simp only [get_type_code, Record.decode_value, encode_value, hnn, if_false,
      OfNat.one_ne_ofNat, reduceIte]
    rw [unpack_varint_at]
    simp [Int.toNat_of_nonneg (by omega : (0 : Int) ≤ i)]
  | float bits =>
    have h8 : bits.length = 8 := hv
    simp only [get_type_code, Record.decode_value, encode_value]
    rw [List.drop_left, ← h8, List.take_left]
    simp [h8]
  | text b =>
    have hbb : (List.drop (pre.length + (pack_varint b.length).length)
        (pre ++ (pack_varint b.length ++ (b ++ rest)))).take b.length = b := by
      rw [show pre.length + (pack_varint b.length).length =
          (pre ++ pack_varint b.length).length by simp]
      rw [show pre ++ (pack_varint b.length ++ (b ++ rest)) =
          (pre ++ pack_varint b.length) ++ (b ++ rest) by simp]
      rw [List.drop_left, List.take_left]
    simp only [get_type_code, Record.decode_value, encode_value]
    rw [List.append_assoc, unpack_varint_at]
    simp [hbb, Nat.add_comm]
  | blob b =>
    have hbb : (List.drop (pre.length + (pack_varint b.length).length)
        (pre ++ (pack_varint b.length ++ (b ++ rest)))).take b.length = b := by
      rw [show pre.length + (pack_varint b.length).length =
          (pre ++ pack_varint b.length).length by simp]
      rw [show pre ++ (pack_varint b.length ++ (b ++ rest)) =
          (pre ++ pack_varint b.length) ++ (b ++ rest) by simp]
      rw [List.drop_left, List.take_left]
    simp only [get_type_code, Record.decode_value, encode_value]
    rw [List.append_assoc, unpack_varint_at]
    simp [hbb, Nat.add_comm]

theorem decode_columns_at (values : List SqlValue) (h : ∀ v ∈ values, GoodValue v) :
    ∀ (pre rest : List Nat),
    Record.decode_columns (pre ++ ((values.map encode_value).flatten ++ rest)) pre.length
      (values.map get_type_code) = some values := by
  induction values with
  | nil => intro pre rest; simp [Record.decode_columns]
  | cons v vs ih =>
    intro pre rest
    simp only [List.map_cons, List.flatten_cons]
    rw [List.append_assoc (encode_value v)]
    unfold Record.decode_columns
    rw [decode_value_at v (h v (by simp)) pre ((vs.map encode_value).flatten ++ rest)]
    have ih2 := ih (fun w hw => h w (by simp [hw])) (pre ++ encode_value v) rest
    rw [List.append_assoc, List.length_append] at ih2
    simp [ih2]

theorem read_type_codes_at (codes : List Nat) :
    ∀ (pre rest : List Nat),
    Record.read_type_codes (pre ++ ((codes.map pack_varint).flatten ++ rest)) pre.length
      codes.length =
      some (codes, pre.length + ((codes.map pack_varint).flatten).length) := by
  induction codes with
  | nil => intro pre rest; simp [Record.read_type_codes]
  | cons c cs ih =>
    intro pre rest
    simp only [List.map_cons, List.flatten_cons, List.length_cons]
    rw [List.append_assoc (pack_varint c)]
    unfold Record.read_type_codes
    rw [unpack_varint_at pre ((cs.map pack_varint).flatten ++ rest) c]
    have ih2 := ih (pre ++ pack_varint c) rest
    rw [List.append_assoc, List.length_append] at ih2
    simp [ih2]
    omega

/-- Claim C3, amended: decode is a left inverse of encode for every tuple
whose INTEGER columns are non-negative (FLOAT columns, as eight-byte
IEEE-754 images, round-trip bit-exactly). -/
theorem c3_record_roundtrip_nonneg (values : List SqlValue)
    (h : ∀ v ∈ values, GoodValue v) :
    Record.decode (Record.encode values) = some values := by
  simp only [Record.encode, Record.decode]
  have h1 := unpack_varint_at ([] : List Nat)
    ((pack_varint values.length ++
        (values.map fun v => pack_varint (get_type_code v)).flatten) ++
      (values.map encode_value).flatten)
    (pack_varint values.length ++
      (values.map fun v => pack_varint (get_type_code v)).flatten).length
  have h2 := unpack_varint_at
    (pack_varint
      (pack_varint values.length ++
        (values.map fun v => pack_varint (get_type_code v)).flatten).length)
    ((values.map fun v => pack_varint (get_type_code v)).flatten ++
      (values.map encode_value).flatten)
    values.length
  have h3 := read_type_codes_at (values.map get_type_code)
    (pack_varint
      (pack_varint values.length ++
        (values.map fun v => pack_varint (get_type_code v)).flatten).length ++
      pack_varint values.length)
    ((values.map encode_value).flatten)
  have h4 := decode_columns_at values h
    (pack_varint
      (pack_varint values.length ++
        (values.map fun v => pack_varint (get_type_code v)).flatten).length ++
      (pack_varint values.length ++
        (values.map fun v => pack_varint (get_type_code v)).flatten))
    ([] : List Nat)
  simp only [List.append_assoc, List.nil_append, List.length_nil, List.append_nil,
    List.length_append, List.length_map, List.map_map, Function.comp_def,
    Nat.add_assoc, Nat.zero_add] at h1 h2 h3 h4 ⊢
  rw [h1]
  simp only [Option.bind_eq_bind, Option.some_bind]
  rw [h2]
  simp only [Option.bind_eq_bind, Option.some_bind]
  rw [h3]
  simp only [Option.bind_eq_bind, Option.some_bind]
  rw [h4]

/-- Witness for the amended C3 at a five-column tuple covering every type. -/
theorem c3_record_roundtrip_nonneg_witness :
    (∀ v ∈ [SqlValue.int 5, SqlValue.text [104, 105], SqlValue.null,
        SqlValue.float [64, 9, 33, 251, 84, 68, 45, 24], SqlValue.blob [0, 255]],
      GoodValue v) ∧
    Record.decode (Record.encode [SqlValue.int 5, SqlValue.text [104, 105], SqlValue.null,
        SqlValue.float [64, 9, 33, 251, 84, 68, 45, 24], SqlValue.blob [0, 255]]) =
      some [SqlValue.int 5, SqlValue.text [104, 105], SqlValue.null,
        SqlValue.float [64, 9, 33, 251, 84, 68, 45, 24], SqlValue.blob [0, 255]] :=
  ⟨by decide, c3_record_roundtrip_nonneg _ (by decide)⟩

/-- Claim C3 counterexample: the tuple (-1, 1) does not round-trip.  The
four-byte image 255 255 255 255 of -1 followed by the varint 1 parses as
the five-byte varint 536870911, after which the second column has no
bytes left and decoding fails. -/
theorem c3_counterexample :
    Record.decode (Record.encode [SqlValue.int (-1), SqlValue.int 1]) ≠
      some [SqlValue.int (-1), SqlValue.int 1] := by decide

end YesDb


namespace YesDb

/-! ### Evaluations of the B-tree at the failing inputs of C1 and C2 -/

/-- Claim C1 (evaluation at the failing input): insert keys 10, 20, 30,
40 with 100-byte payloads on a fresh tree with 512-byte pages.  The
fourth insert splits the root leaf and promotes key 30, which stays as
the first key of the new right leaf while the new root maps separator 30
to the left child; search then descends left of the separator and
reports not-found, although the claim (and the spec) promises the most
recently inserted payload for the promoted separator key. -/
theorem c1_search_loses_promoted_key :
    spec_search_expected c1_ops 30 = some cex_record ∧
    btree_search (apply_ops (bt_new 512) c1_ops).1 (apply_ops (bt_new 512) c1_ops).2 30 =
      .ok none := by decide

/-- Claim C2 (evaluation at the failing input): two further inserts make
the right leaf split as well; its separator cell (50, new-page) is
inserted into the root with the wrong child convention, so scan visits
the children in the order left leaf, newest leaf, right pointer and
yields keys 10, 20, 50, 60, 30, 40 - not strictly ascending. -/
theorem c2_scan_out_of_order :
    scan_keys (apply_ops (bt_new 512) c2_ops).1 (apply_ops (bt_new 512) c2_ops).2 =
      some [10, 20, 50, 60, 30, 40] ∧
    strictly_ascending [10, 20, 50, 60, 30, 40] = false := by decide

end YesDb

namespace YesDb

/-! ### Proofs about the pager read path (C9) -/

/-- Claim C9: read-page(id) fails with the out-of-range error exactly
when the id is negative or at least the page count; within range it
returns a buffer of exactly page-size bytes - the cached buffer on a
hit, the file slice (which is then cached) on a miss.  The hypotheses
state the pager invariants: cached buffers are page-sized and the file
holds page-count complete pages (Pager._open_existing computes
page-count as the file size divided by the page size). -/
theorem c9_read_page_contract (st : PagerState) (page_id : Int)
    (hcache : ∀ p ∈ st.cache, (p.2).length = st.page_size)
    (hfile : st.num_pages * st.page_size ≤ st.file_data.length) :
    ((page_id < 0 ∨ (st.num_pages : Int) ≤ page_id) →
      read_page st page_id = .error "OutOfRange") ∧
    (0 ≤ page_id → page_id < (st.num_pages : Int) →
      (∀ buf st2, read_page st page_id = .ok (buf, st2) → buf.length = st.page_size) ∧
      (∀ entry, st.cache.find? (fun p => p.1 == page_id) = some entry →
        read_page st page_id = .ok (entry.2, st)) ∧
      (st.cache.find? (fun p => p.1 == page_id) = none →
        read_page st page_id =
          .ok (page_slice st page_id,
            { st with cache := assoc_write st.cache page_id (page_slice st page_id) }))) := by
  have hslice : 0 ≤ page_id → page_id < (st.num_pages : Int) →
      (page_slice st page_id).length = st.page_size := by
    intro h0 hlt
    have hn : page_id.toNat < st.num_pages := by omega
    have hbound : (page_id.toNat + 1) * st.page_size ≤ st.file_data.length :=
      le_trans (Nat.mul_le_mul_right _ (by omega)) hfile
    unfold page_slice
    rw [List.length_take, List.length_drop]
    have hb2 : st.page_size + page_id.toNat * st.page_size ≤ st.file_data.length := by
      nlinarith
    omega
  have hassert : 0 ≤ page_id → page_id < (st.num_pages : Int) →
      assert_valid_page_id page_id ((st.num_pages : Int) - 1) = true := by
    intro h0 hlt
    simp only [assert_valid_page_id, Bool.and_eq_true, Bool.not_eq_true',
      decide_eq_false_iff_not]
    constructor <;> omega
  constructor
  · intro h
    unfold read_page
    rw [if_pos]
    simp only [assert_valid_page_id, Bool.and_eq_true, Bool.not_eq_true',
      decide_eq_false_iff_not, not_and, not_not]
    intro hnn
    omega
  · intro h0 hlt
    have ha := hassert h0 hlt
    refine ⟨?_, ?_, ?_⟩
    · intro buf st2 hread
      unfold read_page at hread
      simp only [ha, eq_self_iff_true, not_true, if_false] at hread
      cases hfind : st.cache.find? (fun p => p.1 == page_id) with
      | some entry =>
        rw [hfind] at hread
        simp only [Except.ok.injEq, Prod.mk.injEq] at hread
        rw [← hread.1]
        exact hcache entry (List.mem_of_find?_eq_some hfind)
      | none =>
        rw [hfind] at hread
        have hs := hslice h0 hlt
        simp only [hs, ne_eq, not_true_eq_false, if_false, Except.ok.injEq,
          Prod.mk.injEq] at hread
        rw [← hread.1]
        exact hs
    · intro entry hfind
      unfold read_page
      simp only [ha, eq_self_iff_true, not_true, if_false, hfind]
    · intro hfind
      unfold read_page
      have hs := hslice h0 hlt
      simp only [ha, eq_self_iff_true, not_true, if_false, hfind, hs, ne_eq,
        not_true_eq_false]

/-- Witness for C9: a two-page file of 512-byte pages with an empty
cache, read at page 1. -/
theorem c9_read_page_contract_witness :
    ((∀ p ∈ c9_pager.cache, (p.2).length = c9_pager.page_size) ∧
      c9_pager.num_pages * c9_pager.page_size ≤ c9_pager.file_data.length) ∧
    (((1 : Int) < 0 ∨ (c9_pager.num_pages : Int) ≤ 1) →
      read_page c9_pager 1 = .error "OutOfRange") ∧
    (0 ≤ (1 : Int) → (1 : Int) < (c9_pager.num_pages : Int) →
      (∀ buf st2, read_page c9_pager 1 = .ok (buf, st2) →
        buf.length = c9_pager.page_size) ∧
      (∀ entry, c9_pager.cache.find? (fun p => p.1 == (1 : Int)) = some entry →
        read_page c9_pager 1 = .ok (entry.2, c9_pager)) ∧
      (c9_pager.cache.find? (fun p => p.1 == (1 : Int)) = none →
        read_page c9_pager 1 =
          .ok (page_slice c9_pager 1,
            { c9_pager with
              cache := assoc_write c9_pager.cache 1 (page_slice c9_pager 1) }))) :=
  ⟨⟨by decide, by simp [c9_pager]⟩,
    c9_read_page_contract c9_pager 1 (by decide) (by simp [c9_pager])⟩

/-! ### The DELETE opcode leaves the tree untouched (C10) -/

/-- Claim C10: executing the DELETE opcode on a writable cursor
positioned at a valid record only clears the cursor validity flag: the
machine it returns carries the identical page store (so any later scan
or search of the backing tree still sees the current record), the same
tree cache, stack and result rows. -/
theorem c10_op_delete_frame (m : Machine) (cid : Int) (c : Cursor)
    (hc : cursors_get m cid = some c) (hw : c.writable = true) (hv : c.valid = true) :
    op_delete m cid = .ok (machine_invalidate m cid c) ∧
    (machine_invalidate m cid c).bt = m.bt ∧
    (machine_invalidate m cid c).btrees = m.btrees ∧
    (machine_invalidate m cid c).stack = m.stack ∧
    (machine_invalidate m cid c).result_rows = m.result_rows ∧
    (∀ root, btree_scan (machine_invalidate m cid c).bt root = btree_scan m.bt root) ∧
    (∀ root key,
      btree_search (machine_invalidate m cid c).bt root key =
        btree_search m.bt root key) := by
  refine ⟨?_, rfl, rfl, rfl, rfl, fun _ => rfl, fun _ _ => rfl⟩
  unfold op_delete
  rw [hc]
  simp [hw, hv, machine_invalidate]

/-- Witness for C10: a machine with one writable, valid cursor over a
one-record tree. -/
theorem c10_op_delete_frame_witness :
    (cursors_get c10_machine 0 = some c10_cursor ∧
      c10_cursor.writable = true ∧ c10_cursor.valid = true) ∧
    op_delete c10_machine 0 = .ok (machine_invalidate c10_machine 0 c10_cursor) :=
  ⟨⟨rfl, rfl, rfl⟩,
    (c10_op_delete_frame c10_machine 0 c10_cursor rfl rfl rfl).1⟩

end YesDb


namespace YesDb

/-! ### Evaluations of the SQL front end at the failing inputs of C4 and C5 -/

/-- Claim C4 (evaluation at the failing input): for SELECT * FROM t
WHERE 5 = 5 the optimizer does reduce the WHERE expression to the
literal true, but the generated program contains no JUMP_IF_FALSE at
all (the source computes the skip target into an unused local and never
emits the jump): the WHERE value is pushed right before RESULT_ROW,
which then pops it instead of the record, so executing the statement
over a two-row table t returns the rows [1] and [1] rather than the
rows of t (shown by the scan in the last conjunct). -/
theorem c4_where_result_rows_not_gated :
    parse_statement (tokenize c4_sql) =
      .ok (.selectStmt ["*"] "t" (some (.binop (.lit (.vint 5)) "=" (.lit (.vint 5))))) ∧
    optimize (.selectStmt ["*"] "t" (some (.binop (.lit (.vint 5)) "=" (.lit (.vint 5))))) =
      .selectStmt ["*"] "t" (some (.lit (.vbool true))) ∧
    c4_pipeline = .ok c4_program ∧
    c4_program.all (fun i => i.opcode != .JUMP_IF_FALSE) = true ∧
    (dbm_execute c4_table_state.1 c4_program 100).toOption.map (fun p => p.1) =
      some [[DbVal.int 1], [DbVal.int 1]] ∧
    btree_scan c4_table_state.1 c4_table_state.2 =
      .ok [(1, [SqlValue.int 1]), (2, [SqlValue.int 2])] :=
  ⟨by decide, by decide, rfl, rfl, rfl, rfl⟩

/-- Claim C5 (evaluation at the failing input): the lexer keyword table
knows none of DROP, ALTER, ORDER, BY, LIMIT, OFFSET, ASC, DESC or
DISTINCT, and the parser rejects the extended statements with a
ParseError (DROP and ALTER are not statement starters; DISTINCT lexes
as a plain identifier, after which FROM is missing).  The parser module
also defines no DropTableStatement or AlterTableStatement for api.py to
import, so the controller it claims to route to cannot even load. -/
theorem c5_extended_sql_rejected :
    keyword_lookup "DROP" = none ∧ keyword_lookup "ALTER" = none ∧
    keyword_lookup "ORDER" = none ∧ keyword_lookup "BY" = none ∧
    keyword_lookup "LIMIT" = none ∧ keyword_lookup "OFFSET" = none ∧
    keyword_lookup "DISTINCT" = none ∧ keyword_lookup "ASC" = none ∧
    keyword_lookup "DESC" = none ∧ keyword_lookup "ADD" = none ∧
    parse_statement (tokenize "DROP TABLE t") =
      .error "ParseError: unexpected token" ∧
    parse_statement (tokenize "ALTER TABLE t ADD c INTEGER") =
      .error "ParseError: unexpected token" ∧
    parse_statement (tokenize "SELECT DISTINCT a FROM t") =
      .error "ParseError: expected token" := by decide

end YesDb

namespace YesDb

/-! ### The auto-increment key of INSERT (C7) -/

theorem assoc_write_find {α β : Type} [BEq α] [LawfulBEq α]
    (l : List (α × β)) (k : α) (v : β) :
    ((assoc_write l k v).find? (fun p => p.1 == k)).map (fun p => p.2) = some v := by
  induction l with
  | nil => simp [assoc_write]
  | cons p rest ih =>
    obtain ⟨pk, pv⟩ := p
    unfold assoc_write
    by_cases h : pk == k
    · simp only [h, if_true, List.find?]
      simp [h]
    · simp only [h, if_false, List.find?]
      simp only [Bool.false_eq_true] at h
      simp [h, ih]

/-- Claim C7: when the declared primary-key column of the target table
receives NULL, generate_insert uses the current auto-increment counter
as the key pushed before the record, bumps the counter by one in the
shared metadata, and substitutes the counter value into the primary-key
position of the value list that MAKE_RECORD turns into the stored
record. -/
theorem c7_insert_null_pk_uses_counter
    (cg : CodeGenState) (table : String) (values : List LitVal)
    (root : Nat) (tm : TableMetadata) (pk : String) (i : Nat)
    (hroot : get_table_root cg table = .ok root)
    (hmeta : metadata_get cg table = some tm)
    (hpk : tm.primary_key_column = some pk)
    (hpkne : pk ≠ "")
    (hidx : tm.columns.findIdx? (fun col => col.name == pk) = some i)
    (hlen : i < values.length)
    (hnull : values.getD i .vnull = .vnull) :
    generate_insert cg table values =
      .ok (
        { opcode := .OPEN_WRITE, p1 := 0, p2 := (root : Int) } ::
        { opcode := .INTEGER, p1 := (tm.next_auto_increment : Int) } ::
        ((values.set i (.vint tm.next_auto_increment)).map push_value_instruction ++
          [{ opcode := .MAKE_RECORD,
             p1 := ((values.set i (.vint tm.next_auto_increment)).length : Int) },
           { opcode := .INSERT, p1 := 0 },
           { opcode := .CLOSE, p1 := 0 },
           { opcode := .HALT }]),
        { cg with table_metadata := (assoc_write cg.table_metadata table
            { tm with next_auto_increment := tm.next_auto_increment + 1 }) }) ∧
    (values.set i (.vint tm.next_auto_increment)).getD i .vnull =
      .vint tm.next_auto_increment ∧
    metadata_get
        { cg with table_metadata := (assoc_write cg.table_metadata table
            { tm with next_auto_increment := tm.next_auto_increment + 1 }) } table =
      some { tm with next_auto_increment := tm.next_auto_increment + 1 } := by
  have hpkb : (pk == "") = false := by
    simp [hpkne]
  have hcond : ¬ (i < values.length ∧ values.getD i .vnull ≠ .vnull) := by
    simp only [ne_eq, not_and, not_not]
    intro _
    exact hnull
  have hset : (if i = 0 then LitVal.vint tm.next_auto_increment :: values.drop 1
      else if i < values.length then values.set i (.vint tm.next_auto_increment)
      else values) = values.set i (.vint tm.next_auto_increment) := by
    by_cases h0 : i = 0
    · subst h0
      cases values with
      | nil => simp at hlen
      | cons a as => simp [List.set]
    · simp [h0, hlen]
  refine ⟨?_, ?_, ?_⟩
  · unfold generate_insert
    rw [hroot]
    simp only [hmeta, hpk, hpkb, Bool.false_eq_true, if_false, hidx, hcond,
      ite_false, hset]
    rfl
  · simp [List.getD, List.getElem?_set, hlen]
  · exact assoc_write_find cg.table_metadata table _

/-- Witness for C7: INSERT INTO t VALUES (NULL, 10) on a table whose
first column is the INTEGER PRIMARY KEY and whose counter is 1. -/
theorem c7_insert_null_pk_uses_counter_witness :
    (get_table_root c7_codegen "t" = .ok 2 ∧
      metadata_get c7_codegen "t" = some c7_metadata ∧
      c7_metadata.primary_key_column = some "id" ∧
      c7_metadata.columns.findIdx? (fun col => col.name == "id") = some 0 ∧
      0 < ([LitVal.vnull, LitVal.vint 10] : List LitVal).length ∧
      ([LitVal.vnull, LitVal.vint 10] : List LitVal).getD 0 .vnull = .vnull) ∧
    generate_insert c7_codegen "t" [LitVal.vnull, LitVal.vint 10] =
      .ok (
        { opcode := .OPEN_WRITE, p1 := 0, p2 := ((2 : Nat) : Int) } ::
        { opcode := .INTEGER, p1 := (c7_metadata.next_auto_increment : Int) } ::
        ((([LitVal.vnull, LitVal.vint 10] : List LitVal).set 0
            (.vint c7_metadata.next_auto_increment)).map push_value_instruction ++
          [{ opcode := .MAKE_RECORD,
             p1 := ((([LitVal.vnull, LitVal.vint 10] : List LitVal).set 0
               (.vint c7_metadata.next_auto_increment)).length : Int) },
           { opcode := .INSERT, p1 := 0 },
           { opcode := .CLOSE, p1 := 0 },
           { opcode := .HALT }]),
        { c7_codegen with table_metadata := (assoc_write c7_codegen.table_metadata "t"
            { c7_metadata with
              next_auto_increment := c7_metadata.next_auto_increment + 1 }) }) :=
  ⟨⟨rfl, rfl, rfl, rfl, by decide, rfl⟩,
    (c7_insert_null_pk_uses_counter c7_codegen "t" [LitVal.vnull, LitVal.vint 10]
      2 c7_metadata "id" 0 rfl rfl rfl (by decide) rfl (by decide) rfl).1⟩

/-- C6: closing and reopening does NOT preserve the set of table names.
Creating nineteen tables overflows the catalog root leaf, so the
catalog root splits and the BTree object tracks the new root page; but
_load_system_catalog unconditionally sets the catalog root back to
SYSTEM_CATALOG_PAGE (page 1), which is by then only the left child
leaf of the split.  Reopening therefore loads just the tables whose
catalog keys stayed in the left leaf: t01 through t10.  Tables t11
through t19 vanish from the reopened handle, and their auto-increment
counters and column definitions are lost with them. -/
theorem c6_reopen_loses_tables :
    c6_session.map (fun s => s.tables.map Prod.fst) = .ok c6_names ∧
    c6_session.map
      (fun s => (yesdb_reopen (yesdb_close s)).tables.map Prod.fst) =
      .ok c6_loaded_names ∧
    c6_loaded_names ≠ c6_names :=
  ⟨by decide, by decide, by decide⟩

end YesDb
